import Mathlib

/-!
# The C API boundary of XGBoost (`src/c_api/c_api.cc`)

A shallow embedding of the exported functions of `c_api.cc`.

* Handles are addresses (`Nat`, `0` is `nullptr`); the objects they point to
  live in an explicit `Heap`.  Dereferencing the null pointer or an address
  without a live object is undefined behaviour, recorded as `undefined`.
* An exported function returns the status `0` or `-1`; on `-1` the message of
  the `dmlc::Error` that was thrown is the last error.
* The engine behind the boundary (`Learner`, `DMatrix::Slice`, the parameter
  registry, `to_chars`/`from_chars`) is not part of `c_api.cc`; the functions
  below take those services as parameters.
-/

namespace XGBoost

set_option linter.unusedVariables false

/-! ## Handles, heap and results -/

/-- A `DMatrixHandle` or `BoosterHandle`: an address, `0` for `nullptr`. -/
abbrev Handle := Nat

/-- The part of `MetaInfo` / `DMatrix` the C API reads. -/
structure DMatrix where
  num_row_ : Nat
  num_col_ : Nat
  group_ptr_ : List Nat
  deriving DecidableEq, Repr

/-- The part of `Learner` the C API reads: the attribute map and the number of
boosting rounds done so far. -/
structure Learner where
  attributes_ : List (String × String)
  rounds_ : Nat
  deriving DecidableEq, Repr

/-- The live objects behind the handles: `dmats` are the
`std::shared_ptr<DMatrix>` objects allocated with `new`, `learners` the
`Learner` objects; `next` is the address the next `new` returns. -/
structure Heap where
  dmats : List (Handle × DMatrix)
  learners : List (Handle × Learner)
  next : Handle
  deriving DecidableEq, Repr

/-- Modelled from the spec: the outcome of an exported function under the
macros `API_BEGIN()` / `API_END()` of `c_api_error.h`, which are not part of
the sources (section 6: "every call returns a status code (success / failure)
and, on failure, an accessible last-error message").  `success` is
`return 0`, `failure` is `return -1` with the message of the caught
`dmlc::Error`; `out` is what has been written through the output pointer when
the function returns.  `undefined` is undefined behaviour (an invalid pointer
was dereferenced or deleted). -/
inductive ApiResult (σ α : Type) where
  | success (s : σ) (out : α)
  | failure (s : σ) (msg : String) (out : Option α)
  | undefined
  deriving DecidableEq, Repr

/-- The status code the caller sees, if the call returns. -/
def ApiResult.status {σ α : Type} : ApiResult σ α → Option Int
  | .success _ _ => some 0
  | .failure _ _ _ => some (-1)
  | .undefined => none

/-- The last-error message the caller can retrieve after the call. -/
def ApiResult.lastError {σ α : Type} : ApiResult σ α → Option String
  | .failure _ msg _ => some msg
  | _ => none

/-- The value written through the output pointer, if any. -/
def ApiResult.out {σ α : Type} : ApiResult σ α → Option α
  | .success _ o => some o
  | .failure _ _ o => o
  | .undefined => none

/-- Modelled from the spec: the message of the `CHECK_HANDLE()` macro of
`c_api_error.h`, which is not part of the sources; the spec calls it the
"bad handle" error, and `XGBoosterPredictFromDMatrix` spells out the same check
with the text "... has not been intialized or has already been disposed.". -/
def kBadHandle : String :=
  "DMatrix/Booster has not been intialized or has already been disposed."

/-- Modelled from the spec: `CHECK_HANDLE()`, "validate a non-null handle
before dereferencing and fail with a bad handle error on null".  It compares
the variable `handle` with `nullptr` and does nothing else. -/
def CHECK_HANDLE (handle : Handle) : Option String :=
  if handle = 0 then some kBadHandle else none

/-- The explicit null checks of `XGBoosterPredictFromDMatrix`. -/
def kBoosterDisposed : String :=
  "Booster has not been intialized or has already been disposed."

/-- The explicit null check of `dmat` in `XGBoosterPredictFromDMatrix`. -/
def kDMatrixDisposed : String :=
  "DMatrix has not been intialized or has already been disposed."

/-- The dereference `*static_cast<std::shared_ptr<DMatrix>*>(h)`: `none` is undefined
behaviour (null or dangling pointer). -/
def derefDMatrix (heap : Heap) (h : Handle) : Option DMatrix :=
  if h = 0 then none else heap.dmats.lookup h

/-- The dereference `*static_cast<Learner*>(h)`: `none` is undefined behaviour. -/
def derefLearner (heap : Heap) (h : Handle) : Option Learner :=
  if h = 0 then none else heap.learners.lookup h

/-- Replace the object stored at address `h`. -/
def storeAt {β : Type} (h : Handle) (v : β) : List (Handle × β) → List (Handle × β)
  | [] => []
  | (a, b) :: rest => if a = h then (a, v) :: rest else (a, b) :: storeAt h v rest

/-- The services of the engine that `c_api.cc` calls and does not define. -/
structure Engine where
  /-- The call `Learner::Create(mats)`. -/
  Create : List DMatrix → Learner
  /-- The call `Learner::UpdateOneIter(iter, dtrain)`; `Except.error` is a thrown
  `dmlc::Error`. -/
  UpdateOneIter : Learner → Int → DMatrix → Except String Learner
  /-- The call `DMatrix::Slice(ridxs)`. -/
  Slice : DMatrix → List Int → Except String DMatrix

/-! ## Dataset handles -/

/-- Exported function `XGDMatrixFree`: `CHECK_HANDLE()`, then `delete` of the
`std::shared_ptr<DMatrix>` the handle points to. -/
def XGDMatrixFree (heap : Heap) (handle : Handle) : ApiResult Heap Unit :=
  match CHECK_HANDLE handle with
  | some msg => .failure heap msg none
  | none =>
    match heap.dmats.lookup handle with
    | none => .undefined
    | some _ => .success { heap with dmats := heap.dmats.filter (fun p => p.1 != handle) } ()

/-- Exported function `XGDMatrixNumRow`. -/
def XGDMatrixNumRow (heap : Heap) (handle : Handle) : ApiResult Heap Nat :=
  match CHECK_HANDLE handle with
  | some msg => .failure heap msg none
  | none =>
    match derefDMatrix heap handle with
    | none => .undefined
    | some m => .success heap m.num_row_

/-- Exported function `XGDMatrixNumCol`. -/
def XGDMatrixNumCol (heap : Heap) (handle : Handle) : ApiResult Heap Nat :=
  match CHECK_HANDLE handle with
  | some msg => .failure heap msg none
  | none =>
    match derefDMatrix heap handle with
    | none => .undefined
    | some m => .success heap m.num_col_

/-- The text streamed after the failed `CHECK_EQ` of
`XGDMatrixSliceDMatrixEx`. -/
def kSliceGroup : String := "slice does not support group structure"

/-- Exported function `XGDMatrixSliceDMatrixEx`.  `idxset` is the caller's array, the span
handed to `Slice` is its first `len` entries.  The new handle is written to
`*out` last. -/
def XGDMatrixSliceDMatrixEx (E : Engine) (heap : Heap) (handle : Handle)
    (idxset : List Int) (len : Nat) (allow_groups : Int) : ApiResult Heap Handle :=
  match CHECK_HANDLE handle with
  | some msg => .failure heap msg none
  | none =>
    match derefDMatrix heap handle with
    | none => .undefined
    | some dmat =>
      if allow_groups = 0 ∧ dmat.group_ptr_.length ≠ 0 then
        .failure heap kSliceGroup none
      else
        match E.Slice dmat (idxset.take len) with
        | .error msg => .failure heap msg none
        | .ok sliced =>
          .success { heap with dmats := (heap.next, sliced) :: heap.dmats,
                               next := heap.next + 1 } heap.next

/-- Exported function `XGDMatrixSliceDMatrix`:
`return XGDMatrixSliceDMatrixEx(handle, idxset, len, out, 0)`. -/
def XGDMatrixSliceDMatrix (E : Engine) (heap : Heap) (handle : Handle)
    (idxset : List Int) (len : Nat) : ApiResult Heap Handle :=
  XGDMatrixSliceDMatrixEx E heap handle idxset len 0

/-! ## Model handles -/

/-- The loop of `XGBoosterCreate` that copies `*dmats[i]` into `mats`;
`none` when some `dmats[i]` cannot be dereferenced. -/
def collectMats (heap : Heap) : List Handle → Option (List DMatrix)
  | [] => some []
  | h :: hs =>
    match derefDMatrix heap h with
    | none => none
    | some m =>
      match collectMats heap hs with
      | none => none
      | some ms => some (m :: ms)

/-- Exported function `XGBoosterCreate`: no handle check; every `dmats[i]`, `i < len`, is
dereferenced. -/
def XGBoosterCreate (E : Engine) (heap : Heap) (dmats : List Handle) (len : Nat) :
    ApiResult Heap Handle :=
  match collectMats heap (dmats.take len) with
  | none => .undefined
  | some mats =>
    .success { heap with learners := (heap.next, E.Create mats) :: heap.learners,
                         next := heap.next + 1 } heap.next

/-- Exported function `XGBoosterFree`: `CHECK_HANDLE()`, then `delete` of the `Learner`. -/
def XGBoosterFree (heap : Heap) (handle : Handle) : ApiResult Heap Unit :=
  match CHECK_HANDLE handle with
  | some msg => .failure heap msg none
  | none =>
    match heap.learners.lookup handle with
    | none => .undefined
    | some _ =>
      .success { heap with learners := heap.learners.filter (fun p => p.1 != handle) } ()

/-- Exported function `XGBoosterBoostedRounds`: `CHECK_HANDLE()`, then
`Configure()` on the `Learner`, then `*out = BoostedRounds()`.  `Configure` is
the call `Learner::Configure()` of the engine, which `c_api.cc` does not
define: it throws or leaves the configured `Learner`. -/
def XGBoosterBoostedRounds (Configure : Learner → Except String Learner) (heap : Heap)
    (handle : Handle) : ApiResult Heap Nat :=
  match CHECK_HANDLE handle with
  | some msg => .failure heap msg none
  | none =>
    match derefLearner heap handle with
    | none => .undefined
    | some bst =>
      match Configure bst with
      | .error msg => .failure heap msg none
      | .ok learner =>
        .success { heap with learners := storeAt handle learner heap.learners } learner.rounds_

/-- Exported function `XGBoosterUpdateOneIter`: `CHECK_HANDLE()` on `handle` only; `dtrain` is
dereferenced (`*dtr`) without a check. -/
def XGBoosterUpdateOneIter (E : Engine) (heap : Heap) (handle : Handle) (iter : Int)
    (dtrain : Handle) : ApiResult Heap Unit :=
  match CHECK_HANDLE handle with
  | some msg => .failure heap msg none
  | none =>
    match derefLearner heap handle with
    | none => .undefined
    | some bst =>
      match derefDMatrix heap dtrain with
      | none => .undefined
      | some dtr =>
        match E.UpdateOneIter bst iter dtr with
        | .error msg => .failure heap msg none
        | .ok bst2 => .success { heap with learners := storeAt handle bst2 heap.learners } ()

/-- Exported function `XGBoosterGetAttr`.  The first two statements of the body,
`bst = static_cast<Learner*>(handle)` and
`std::string& ret_str = bst->GetThreadLocal().ret_str`, come before
`API_BEGIN(); CHECK_HANDLE();`.  The output is `(*out, *success)`, with
`none` for `*out = nullptr`. -/
def XGBoosterGetAttr (heap : Heap) (handle : Handle) (key : String) :
    ApiResult Heap (Option String × Int) :=
  match derefLearner heap handle with
  | none => .undefined
  | some bst =>
    match CHECK_HANDLE handle with
    | some msg => .failure heap msg none
    | none =>
      match bst.attributes_.lookup key with
      | some v => .success heap (some v, 1)
      | none => .success heap (none, 0)

/-! ## JSON documents -/

/-- A `float` (IEEE binary32) by its bit pattern. -/
structure F32 where
  bits : Nat
  deriving DecidableEq, Repr

/-- The `Json` value of `xgboost/json.h`, one constructor per `ValueKind`.
An `Object` is a `std::map`, kept here as the list of its items in key
order; a JSON `Number` holds a `float`. -/
inductive Json where
  | kNull
  | kInteger (i : Int)
  | kBoolean (b : Bool)
  | kNumber (f : F32)
  | kString (s : String)
  | kArray (a : List Json)
  | kObject (o : List (String × Json))

/-- The tag of a value, `Value::Type()`. -/
inductive ValueKind where
  | kString | kNumber | kInteger | kObject | kArray | kBoolean | kNull
  deriving DecidableEq, Repr

/-- The tag `Json::GetValue().Type()`. -/
def Json.Type : Json → ValueKind
  | .kNull => .kNull
  | .kInteger _ => .kInteger
  | .kBoolean _ => .kBoolean
  | .kNumber _ => .kNumber
  | .kString _ => .kString
  | .kArray _ => .kArray
  | .kObject _ => .kObject

/-- Outcome of a block of statements: a value, a thrown `dmlc::Error`
(`LOG(FATAL)` or a failed `CHECK`), or undefined behaviour. -/
inductive Exec (α : Type) where
  | ok (a : α)
  | error (msg : String)
  | undefined

/-- The message of a failed `get<T>` cast of a `Json` value. -/
def kBadCast : String := "Invalid cast"

/-- The message of a failed `CHECK(ec == std::errc())`. -/
def kCheckErrc : String := "Check failed: ec == std::errc()"

/-- The message of a failed `CHECK(e)` in `XGBGetGlobalConfig`. -/
def kCheckEntry : String := "Check failed: e"

/-- The message of a failed `CHECK_LE` in `XGBGetGlobalConfig`. -/
def kCheckLE : String :=
  "Check failed: i <= static_cast<intmax_t>(std::numeric_limits<int64_t>::max())"

/-! ## Decimal text of integers: `std::to_string` and `std::strtoimax` -/

/-- The decimal digits of `n`, most significant first (`fuel` bounds the
number of digits). -/
def decimalDigits : Nat → Nat → List Char
  | 0, _ => []
  | fuel + 1, n =>
    if n < 10 then [Nat.digitChar n]
    else decimalDigits fuel (n / 10) ++ [Nat.digitChar (n % 10)]

/-- The text `std::to_string(long long)`: a minus sign for a negative value,
then the decimal digits of the magnitude. -/
def to_string (i : Int) : String :=
  if i < 0 then String.mk ('-' :: decimalDigits (i.natAbs + 1) i.natAbs)
  else String.mk (decimalDigits (i.natAbs + 1) i.natAbs)

/-- The test `isspace` in the C locale. -/
def isspace (c : Char) : Bool :=
  c.toNat = 32 || (9 ≤ c.toNat && c.toNat ≤ 13)

/-- Skip the leading white space of a C string. -/
def skipSpace : List Char → List Char
  | [] => []
  | c :: cs => if isspace c then skipSpace cs else c :: cs

/-- Accumulate the value of the leading run of decimal digits. -/
def digitsValue : List Char → Nat → Nat
  | [], acc => acc
  | c :: cs, acc =>
    if c.isDigit then digitsValue cs (acc * 10 + (c.toNat - 48)) else acc

/-- The largest `intmax_t` (64 bits), which is also the largest `int64_t`. -/
def INTMAX_MAX : Int := 2 ^ 63 - 1

/-- The smallest `intmax_t`. -/
def INTMAX_MIN : Int := -(2 ^ 63)

/-- The value `std::strtoimax(s, nullptr, 10)`: white space, an optional
sign, a run of digits; a value out of range is replaced by `INTMAX_MAX` or
`INTMAX_MIN`. -/
def strtoimax (s : List Char) : Int :=
  match skipSpace s with
  | '-' :: rest =>
    if (2 : Int) ^ 63 < (digitsValue rest 0 : Int) then INTMAX_MIN
    else -(digitsValue rest 0 : Int)
  | '+' :: rest =>
    if INTMAX_MAX < (digitsValue rest 0 : Int) then INTMAX_MAX else (digitsValue rest 0 : Int)
  | rest =>
    if INTMAX_MAX < (digitsValue rest 0 : Int) then INTMAX_MAX else (digitsValue rest 0 : Int)

/-- The cast `static_cast<int64_t>(i)`: the value modulo `2 ^ 64` in the signed range. -/
def cast_int64 (i : Int) : Int := (i + 2 ^ 63) % 2 ^ 64 - 2 ^ 63

/-! ## Floating-point text: `to_chars` and `from_chars` -/

/-- The encoder/parser pair of `common/charconv.h`, not part of `c_api.cc`:
`to_chars x` is the run of characters `to_chars` writes for `x` (it writes no
terminator), `from_chars` parses a character range, `none` when it reports an
error code. -/
structure Charconv where
  to_chars : F32 → List Char
  from_chars : List Char → Option F32

/-- The constructor `std::string(const char*)`: the characters before the
first NUL; `none` when the array holds no NUL, so that the read runs past its
end. -/
def cstring : List Char → Option (List Char)
  | [] => none
  | c :: cs =>
    if c.toNat = 0 then some []
    else match cstring cs with
      | none => none
      | some r => some (c :: r)

/-! ## `XGBSetGlobalConfig` -/

/-- One iteration of the normalising loop of `XGBSetGlobalConfig`.
`chars` is the local array `char chars[NumericLimits<float>::kToCharsSize]`
as it is found on entry to the `kNumber` case: its length is `kToCharsSize`
and its content is indeterminate, the array is not initialised.  `to_chars`
overwrites a prefix of it (`ec` is an error when the text does not fit) and
`String{chars}` reads it as a C string. -/
def normalizeItem (cc : Charconv) (chars : List Char) : String × Json → Exec (String × Json)
  | (key, .kInteger i) => .ok (key, .kString (to_string i))
  | (key, .kBoolean b) => .ok (key, .kString (if b then "true" else "false"))
  | (key, .kNumber n) =>
    if (cc.to_chars n).length ≤ chars.length then
      match cstring (cc.to_chars n ++ chars.drop (cc.to_chars n).length) with
      | none => .undefined
      | some s => .ok (key, .kString (String.mk s))
    else .error kCheckErrc
  | (key, v) => .ok (key, v)

/-- The loop `for (auto& items : get<Object>(config))`. -/
def normalizeItems (cc : Charconv) (chars : List Char) :
    List (String × Json) → Exec (List (String × Json))
  | [] => .ok []
  | item :: rest =>
    match normalizeItem cc chars item with
    | .undefined => .undefined
    | .error msg => .error msg
    | .ok item2 =>
      match normalizeItems cc chars rest with
      | .undefined => .undefined
      | .error msg => .error msg
      | .ok rest2 => .ok (item2 :: rest2)

/-- What `FromJson(config, param)` leaves behind: the parameter object after
the call and the list of unknown `(key, value)` pairs, or a thrown error. -/
inductive FromJsonResult (Cfg : Type) where
  | ok (cfg : Cfg) (unknown : List (String × String))
  | error (cfg : Cfg) (msg : String)

/-- The declared type of a registered parameter: which `FieldEntry<T>` the
`dynamic_cast`s of `XGBGetGlobalConfig` recognise. -/
inductive FieldType where
  | kInt32 | kInt64 | kUInt32 | kUInt64 | kFloat | kDouble | kBool | kOther
  deriving DecidableEq, Repr

/-- The parameter registry behind the global configuration, as `c_api.cc`
uses it: `FromJson` and `ToJson` of `json.h` applied to the thread-local
`GlobalConfiguration`, and `__MANAGER__()->Find`. -/
structure Registry (Cfg : Type) where
  FromJson : List (String × Json) → Cfg → FromJsonResult Cfg
  ToJson : Cfg → Json
  Find : String → Option FieldType

/-- The loop that writes the unknown keys: `ss << item.first; i++;
if (i != unknown.size()) ss << ", "`. -/
def unknownLoop (size : Nat) : List (String × String) → Nat → String → String
  | [], _, ss => ss
  | item :: rest, i, ss =>
    unknownLoop size rest (i + 1)
      (if i + 1 ≠ size then (ss ++ item.1) ++ ", " else ss ++ item.1)

/-- The message streamed to `LOG(FATAL)`. -/
def unknownMessage (unknown : List (String × String)) : String :=
  unknownLoop unknown.length unknown 0 "Unknown global parameters: \x7b " ++ " \x7d"

/-- Exported function `XGBSetGlobalConfig`, on the parsed document
`Json::Load(json_str)`.  The state is the thread-local global configuration. -/
def XGBSetGlobalConfig {Cfg : Type} (cc : Charconv) (chars : List Char) (R : Registry Cfg)
    (cfg : Cfg) (config : Json) : ApiResult Cfg Unit :=
  match config with
  | .kObject items =>
    match normalizeItems cc chars items with
    | .undefined => .undefined
    | .error msg => .failure cfg msg none
    | .ok items2 =>
      match R.FromJson items2 cfg with
      | .error cfg2 msg => .failure cfg2 msg none
      | .ok cfg2 unknown =>
        if unknown.isEmpty then .success cfg2 ()
        else .failure cfg2 (unknownMessage unknown) none
  | _ => .failure cfg kBadCast none

/-- The keys in the order reported, separated by ", " and with nothing after
the last one: the list the message is said to contain. -/
def commaSeparated : List String → String
  | [] => ""
  | [k] => k
  | k :: k2 :: ks => (k ++ ", ") ++ commaSeparated (k2 :: ks)

/-! ## `XGBGetGlobalConfig` -/

/-- The leaf kind `XGBGetGlobalConfig` produces for a declared type. -/
def leafKind : FieldType → ValueKind
  | .kInt32 | .kInt64 | .kUInt32 | .kUInt64 => .kInteger
  | .kFloat | .kDouble => .kNumber
  | .kBool => .kBoolean
  | .kOther => .kString

/-- The leaf kind expected at a key: that of the declared type of the
parameter, a string for a name the manager does not know. -/
def declaredKind (Find : String → Option FieldType) (name : String) : ValueKind :=
  match Find name with
  | some e => leafKind e
  | none => .kString

/-- One iteration of the decoding loop of `XGBGetGlobalConfig`. -/
def decodeItem (cc : Charconv) (Find : String → Option FieldType) :
    String × Json → Exec (String × Json)
  | (name, .kString str) =>
    match Find name with
    | none => .error kCheckEntry
    | some e =>
      if e = .kInt32 ∨ e = .kInt64 ∨ e = .kUInt32 ∨ e = .kUInt64 then
        if strtoimax str.data ≤ INTMAX_MAX then
          .ok (name, .kInteger (cast_int64 (strtoimax str.data)))
        else .error kCheckLE
      else if e = .kFloat ∨ e = .kDouble then
        match cc.from_chars str.data with
        | none => .error kCheckErrc
        | some f => .ok (name, .kNumber f)
      else if e = .kBool then .ok (name, .kBoolean (str != "0"))
      else .ok (name, .kString str)
  | (_, _) => .error kBadCast

/-- The loop `for (auto& item : get<Object>(config))` of `XGBGetGlobalConfig`. -/
def decodeItems (cc : Charconv) (Find : String → Option FieldType) :
    List (String × Json) → Exec (List (String × Json))
  | [] => .ok []
  | item :: rest =>
    match decodeItem cc Find item with
    | .undefined => .undefined
    | .error msg => .error msg
    | .ok item2 =>
      match decodeItems cc Find rest with
      | .undefined => .undefined
      | .error msg => .error msg
      | .ok rest2 => .ok (item2 :: rest2)

/-- Exported function `XGBGetGlobalConfig`: the output is the document that
is dumped into the thread-local `ret_str`. -/
def XGBGetGlobalConfig {Cfg : Type} (cc : Charconv) (R : Registry Cfg) (cfg : Cfg) :
    ApiResult Cfg Json :=
  match R.ToJson cfg with
  | .kObject items =>
    match decodeItems cc R.Find items with
    | .undefined => .undefined
    | .error msg => .failure cfg msg none
    | .ok items2 => .success cfg (.kObject items2)
  | _ => .failure cfg kBadCast none

/-! ## A registry following the specification -/

/-- The string of every item, `get<String const>(kv.second)`; `none` when a
value is not a string. -/
def stringItems : List (String × Json) → Option (List (String × String))
  | [] => some []
  | (k, .kString s) :: rest =>
    match stringItems rest with
    | none => none
    | some r => some ((k, s) :: r)
  | _ :: _ => none

/-- Set the value of one parameter. -/
def setValue (k v : String) : List (String × String) → List (String × String)
  | [] => [(k, v)]
  | (a, b) :: rest => if a = k then (a, v) :: rest else (a, b) :: setValue k v rest

/-- The message of the error the registry throws for a text it cannot parse
as a value of the declared type. -/
def kInvalidParam : String := "Invalid Parameter format"

/-- Modelled from the spec: the update of the registry behind `FromJson`,
which is not part of the sources, one `(key, text)` pair after the other: a
registered key takes the value ("parsed into the engine's typed parameter
registry"), an unregistered pair is collected. -/
def updateAllowUnknown (Find : String → Option FieldType)
    (Set : FieldType → String → Option String) :
    List (String × String) → List (String × String) → List (String × String) →
      FromJsonResult (List (String × String))
  | [], cfg, unknown => .ok cfg unknown
  | (key, text) :: rest, cfg, unknown =>
    match Find key with
    | none => updateAllowUnknown Find Set rest cfg (unknown ++ [(key, text)])
    | some e =>
      match Set e text with
      | none => .error cfg kInvalidParam
      | some value => updateAllowUnknown Find Set rest (setValue key value cfg) unknown

/-- Modelled from the spec: `FromJson` of `xgboost/json.h` on the global
parameter set, which is not part of the sources.  Section 4.4: the
normalised document is "parsed into the engine's typed parameter registry;
keys unresolved against the registry are collected and reported together".
The configuration holds "each typed parameter's current string value";
`Find` tells which keys are registered and with which declared type, and
`Set e text` is the string value a parameter of type `e` has after it has
been set from `text` (`none` when the text is not a value of that type). -/
def FromJson (Find : String → Option FieldType) (Set : FieldType → String → Option String)
    (items : List (String × Json)) (cfg : List (String × String)) :
    FromJsonResult (List (String × String)) :=
  match stringItems items with
  | none => .error cfg kBadCast
  | some m => updateAllowUnknown Find Set m cfg []

/-- Modelled from the spec: `ToJson` of `xgboost/json.h`, which is not part
of the sources: "each typed parameter's current string value", one string
leaf per parameter. -/
def ToJson (cfg : List (String × String)) : Json :=
  .kObject (cfg.map (fun kv => (kv.1, Json.kString kv.2)))

/-- The registry of the specification over a table of declared types. -/
def specRegistry (Find : String → Option FieldType)
    (Set : FieldType → String → Option String) : Registry (List (String × String)) :=
  { FromJson := FromJson Find Set, ToJson := ToJson, Find := Find }

/-- Modelled from the spec: the typed parse of the registry, which is not
part of the sources.  A boolean parameter accepts the tokens "true" and
"false" (and "1", "0") and reports its value as "1" or "0", the text
`XGBGetGlobalConfig` compares with; the other types keep the text. -/
def typedSet : FieldType → String → Option String
  | .kBool, text =>
    if text = "true" ∨ text = "1" then some "1"
    else if text = "false" ∨ text = "0" then some "0"
    else none
  | _, text => some text

/-! ## Model persistence -/

/-- The files the persistence functions read and write: name and content. -/
abbrev Files := List (String × List Char)

/-- The state the persistence functions work on: the heap and the files. -/
structure World where
  heap : Heap
  files : Files

/-- The services `XGBoosterLoadModel` and `XGBoosterSaveModel` call and do
not define: `common::FileExtension`, `common::LoadSequentialFile`,
`dmlc::Stream`, `Json::Load` / `Json::Dump` and the two codecs of the
`Learner`.  `Except.error` is a thrown `dmlc::Error`. -/
structure Persistence where
  FileExtension : String → String
  LoadSequentialFile : Files → String → Except String (List Char)
  /-- A read stream `dmlc::Stream::Create(fname, "r")`: the bytes it yields. -/
  OpenRead : Files → String → Except String (List Char)
  /-- A write stream `dmlc::Stream::Create(fname, "w")`. -/
  OpenWrite : Files → String → Except String Files
  /-- What `fo->Write` leaves in the file. -/
  Write : Files → String → List Char → Files
  JsonLoad : List Char → Except String Json
  JsonDump : Json → List Char
  Configure : Learner → Except String Learner
  /-- The structured-document codec, `Learner::LoadModel(Json const&)`. -/
  LoadModelJson : Learner → Json → Except String Learner
  /-- The legacy binary codec, `Learner::LoadModel(dmlc::Stream*)`. -/
  LoadModelStream : Learner → List Char → Except String Learner
  /-- The structured-document codec, `Learner::SaveModel(Json*)`. -/
  SaveModelJson : Learner → Except String Json
  /-- The legacy binary codec, `Learner::SaveModel(dmlc::Stream*)`. -/
  SaveModelStream : Learner → Except String (List Char)

/-- The message of the failed `CHECK_GT(str.size(), 2)`. -/
def kCheckSize : String := "Check failed: str.size() > 2"

/-- The message of the failed `CHECK_EQ(str[0], ...)` against the opening
brace. -/
def kCheckBrace : String := "Check failed: str[0] == \x27\x7b\x27"

/-- The opening delimiter of a JSON document, the character with code 123. -/
def kOpenBrace : Char := Char.ofNat 123

/-- The two checks of the `json` branch of `XGBoosterLoadModel` on the loaded
string: `CHECK_GT(str.size(), 2)` and `CHECK_EQ(str[0], ...)`; `none` when
both pass. -/
def checkJsonText (str : List Char) : Option String :=
  if ¬ (2 < str.length) then some kCheckSize
  else if str.head? ≠ some kOpenBrace then some kCheckBrace
  else none

/-- The `json` branch of `XGBoosterLoadModel`. -/
def loadModelJson (P : Persistence) (w : World) (handle : Handle) (fname : String) :
    ApiResult World Unit :=
  match P.LoadSequentialFile w.files fname with
  | .error msg => .failure w msg none
  | .ok str =>
    match checkJsonText str with
    | some msg => .failure w msg none
    | none =>
      match P.JsonLoad str with
      | .error msg => .failure w msg none
      | .ok doc =>
        match derefLearner w.heap handle with
        | none => .undefined
        | some bst =>
          match P.LoadModelJson bst doc with
          | .error msg => .failure w msg none
          | .ok bst2 =>
            .success { w with heap := { w.heap with
              learners := storeAt handle bst2 w.heap.learners } } ()

/-- The `else` branch of `XGBoosterLoadModel`: the legacy binary stream. -/
def loadModelStream (P : Persistence) (w : World) (handle : Handle) (fname : String) :
    ApiResult World Unit :=
  match P.OpenRead w.files fname with
  | .error msg => .failure w msg none
  | .ok bytes =>
    match derefLearner w.heap handle with
    | none => .undefined
    | some bst =>
      match P.LoadModelStream bst bytes with
      | .error msg => .failure w msg none
      | .ok bst2 =>
        .success { w with heap := { w.heap with
          learners := storeAt handle bst2 w.heap.learners } } ()

/-- Exported function `XGBoosterLoadModel`. -/
def XGBoosterLoadModel (P : Persistence) (w : World) (handle : Handle) (fname : String) :
    ApiResult World Unit :=
  match CHECK_HANDLE handle with
  | some msg => .failure w msg none
  | none =>
    if P.FileExtension fname = "json" then loadModelJson P w handle fname
    else loadModelStream P w handle fname

/-- The validation as the specification words it: the content is longer than
two bytes and its first byte that is not white space is the opening brace. -/
def specJsonTextValid (str : List Char) : Bool :=
  decide (2 < str.length) && (skipSpace str).head? == some kOpenBrace

/-! ## Reading a per-call configuration document -/

/-- Sequencing of blocks: an error or undefined behaviour ends the block. -/
def Exec.bind {α β : Type} (x : Exec α) (f : α → Exec β) : Exec β :=
  match x with
  | .ok a => f a
  | .error msg => .error msg
  | .undefined => .undefined

/-- The message of `Json::operator[]` with a string on a value that is not
an object. -/
def kBadIndex : String := "Object can not be indexed by string"

/-- The value `config[key]`: the item of an object, a null value for a key the
object does not hold, an error for a value that is not an object. -/
def Json.index (config : Json) (key : String) : Exec Json :=
  match config with
  | .kObject items =>
    match items.lookup key with
    | some v => .ok v
    | none => .ok .kNull
  | _ => .error kBadIndex

/-- The cast `get<Integer const>(j)`. -/
def getInteger : Json → Exec Int
  | .kInteger i => .ok i
  | _ => .error kBadCast

/-- The cast `get<Boolean const>(j)`. -/
def getBoolean : Json → Exec Bool
  | .kBoolean b => .ok b
  | _ => .error kBadCast

/-! ## Prediction -/

/-- The enumeration `PredictionType` of `xgboost/learner.h`; `kUnknown` stands
for an integer that is none of the enumerators. -/
inductive PredictionType where
  | kValue
  | kMargin
  | kContribution
  | kApproxContribution
  | kInteraction
  | kApproxInteraction
  | kLeaf
  | kUnknown (v : Int)
  deriving DecidableEq, Repr

/-- What the C API reads of an array adapter (`ArrayAdapter`,
`CSRArrayAdapter`, `DenseAdapter`). -/
structure Adapter where
  NumRows : Nat
  NumColumns : Nat
  deriving DecidableEq, Repr

/-- The prediction services `c_api.cc` calls and does not define.
`PredictionTypeOf` is the conversion `PredictionType(i)` of an integer, whose
enumerator values are declared in `learner.h`. -/
structure Predictor where
  PredictionTypeOf : Int → PredictionType
  /-- The call `Learner::Groups()`. -/
  Groups : Learner → Nat
  /-- The call `Learner::Predict(data, output_margin, &predictions,
  iteration_begin, iteration_end, training, pred_leaf, pred_contribs,
  approx_contribs, pred_interactions)`: the staged predictions. -/
  Predict : Learner → DMatrix → Bool → Int → Int → Bool → Bool → Bool → Bool → Bool →
    Except String (List F32)
  /-- The call `Learner::InplacePredict(x, p_m, type, missing, &p_predt,
  iteration_begin, iteration_end)`; `none` leaves `p_predt` null. -/
  InplacePredict : Learner → Adapter → Option DMatrix → PredictionType → F32 → Nat → Nat →
    Except String (Option (List F32))
  /-- The helper `GetMissing(config)` of `c_api_utils.h`. -/
  GetMissing : Json → Except String F32
  /-- The constructor `ArrayAdapter(StringView{array_interface})`. -/
  ArrayAdapter : String → Except String Adapter
  /-- The constructor `CSRArrayAdapter{indptr, indices, data, cols}`. -/
  CSRArrayAdapter : String → String → String → Nat → Except String Adapter

/-- The outputs of a prediction entry point, as far as they have been
written: `*out_shape` (the extents), `*out_dim` and `*out_result`. -/
structure PredictOut where
  out_shape : Option (List Nat) := none
  out_dim : Option Nat := none
  out_result : Option (List F32) := none
  deriving DecidableEq, Repr

/-- Unsigned machine division `a / b`: `none` for a zero divisor, which is
undefined behaviour. -/
def divide (a b : Nat) : Option Nat :=
  if b = 0 then none else some (a / b)

/-- The chunk size of `XGBoosterPredictFromDMatrix` and
`InplacePredictImplCore`: `rows == 0 ? 0 : size / rows`. -/
def chunksizeOf (rows size : Nat) : Option Nat :=
  if rows = 0 then some 0 else divide size rows

/-- The conversion of a signed integer to `size_t` (64 bits). -/
def to_size_t (i : Int) : Nat := (i % 2 ^ 64).toNat

/-- The conversion of a 64-bit integer to `int` (32 bits). -/
def cast_int32 (i : Int) : Int := (i + 2 ^ 31) % 2 ^ 32 - 2 ^ 31

/-- The message for a prediction type that is none of the modes. -/
def kUnknownPredictionType : String := "Unknown prediction type"

/-- Modelled from the spec: `CalcPredictShape` of `c_api_utils.h`, which is
not part of the sources.  Section 4.5: "contribution modes add one extra
trailing dimension of size `columns + 1` (bias term) per group; interaction
modes add two such dimensions; leaf-index mode's trailing dimension is the
round count (or round count × group count if multi-group); default mode's
trailing dimension is the group count if greater than one", and with one
group the shape collapses (section 8: `[100]`).  "A strict shape flag forces
the full-rank shape even when some dimension would otherwise collapse",
with an explicit group dimension of size 1.  Raw margin follows the default
mode.  The result is the shape and `*out_dim`, its rank. -/
def CalcPredictShape (strict_shape : Bool) (type : PredictionType)
    (rows cols chunksize groups rounds : Nat) : Exec (List Nat × Nat) :=
  match type with
  | .kValue | .kMargin =>
    if groups = 1 ∧ strict_shape = false then .ok ([rows], 1)
    else .ok ([rows, groups], 2)
  | .kContribution | .kApproxContribution =>
    if groups = 1 ∧ strict_shape = false then .ok ([rows, cols + 1], 2)
    else .ok ([rows, groups, cols + 1], 3)
  | .kInteraction | .kApproxInteraction =>
    if groups = 1 ∧ strict_shape = false then .ok ([rows, cols + 1, cols + 1], 3)
    else .ok ([rows, groups, cols + 1, cols + 1], 4)
  | .kLeaf =>
    if strict_shape = true then .ok ([rows, rounds, groups], 3)
    else if groups = 1 then .ok ([rows, rounds], 2)
    else .ok ([rows, rounds * groups], 2)
  | .kUnknown _ => .error kUnknownPredictionType

/-- The shape computation of `XGBoosterPredictFromDMatrix` (the statements
after `*out_result` has been written): chunk size, round count,
`strict_shape`, `CalcPredictShape`. -/
def XGBoosterPredictFromDMatrix_shape (P : Predictor) (learner : Learner) (p_m : DMatrix)
    (type : PredictionType) (iteration_begin iteration_end : Int) (predictions : List F32)
    (config : Json) : Exec (List Nat × Nat) :=
  match chunksizeOf p_m.num_row_ predictions.length with
  | none => .undefined
  | some chunksize =>
    (config.index "strict_shape").bind fun j =>
    (getBoolean j).bind fun strict_shape =>
    CalcPredictShape strict_shape type p_m.num_row_ p_m.num_col_ chunksize (P.Groups learner)
      (to_size_t (if cast_int64 (iteration_end - iteration_begin) = 0 then (learner.rounds_ : Int)
        else cast_int64 (iteration_end - iteration_begin)))

/-- The arguments `XGBoosterPredictFromDMatrix` reads from the configuration
before it predicts: `type`, `iteration_begin`, `iteration_end`, `training`. -/
def XGBoosterPredictFromDMatrix_config (P : Predictor) (config : Json) :
    Exec (PredictionType × Int × Int × Bool) :=
  (config.index "type").bind fun j =>
  (getInteger j).bind fun t =>
  (config.index "iteration_begin").bind fun j =>
  (getInteger j).bind fun iteration_begin =>
  (config.index "iteration_end").bind fun j =>
  (getInteger j).bind fun iteration_end =>
  (config.index "training").bind fun j =>
  (getBoolean j).bind fun training =>
  .ok (P.PredictionTypeOf t, iteration_begin, iteration_end, training)

/-- Exported function `XGBoosterPredictFromDMatrix`, on the parsed
configuration `Json::Load(c_json_config)`.  `*out_result` is written right
after `Predict`, `*out_dim` and `*out_shape` after the shape computation. -/
def XGBoosterPredictFromDMatrix (P : Predictor) (heap : Heap) (handle dmat : Handle)
    (config : Json) : ApiResult Heap PredictOut :=
  if handle = 0 then .failure heap kBoosterDisposed none
  else if dmat = 0 then .failure heap kDMatrixDisposed none
  else
    match derefLearner heap handle with
    | none => .undefined
    | some learner =>
      match derefDMatrix heap dmat with
      | none => .undefined
      | some p_m =>
        match XGBoosterPredictFromDMatrix_config P config with
        | .undefined => .undefined
        | .error msg => .failure heap msg none
        | .ok (type, iteration_begin, iteration_end, training) =>
          match P.Predict learner p_m (type = .kMargin) iteration_begin iteration_end training
              (type = .kLeaf)
              (type = .kContribution ∨ type = .kApproxContribution)
              (type = .kApproxContribution ∨ type = .kApproxInteraction)
              (type = .kInteraction ∨ type = .kApproxInteraction) with
          | .error msg => .failure heap msg none
          | .ok predictions =>
            match XGBoosterPredictFromDMatrix_shape P learner p_m type iteration_begin
                iteration_end predictions config with
            | .undefined => .undefined
            | .error msg => .failure heap msg (some { out_result := some predictions })
            | .ok (shape, dim) =>
              .success heap { out_shape := some shape, out_dim := some dim,
                              out_result := some predictions }

/-- The message of the failed `CHECK(p_predt)`. -/
def kCheckPredt : String := "Check failed: p_predt"

/-- The text streamed after the failed `CHECK_EQ` on `cache_id`. -/
def kCacheId : String := "Cache ID is not supported yet"

/-- The function template `InplacePredictImplCore`.  `learner` is
dereferenced by the call of `InplacePredict`; the closing `printf` reads
`**out_shape`, the first extent. -/
def InplacePredictImplCore (P : Predictor) (heap : Heap) (learner : Handle) (x : Adapter)
    (p_m : Option DMatrix) (type : PredictionType) (missing : F32) (n_rows n_cols : Nat)
    (iteration_begin iteration_end : Nat) (strict_shape : Bool) : Exec PredictOut :=
  match derefLearner heap learner with
  | none => .undefined
  | some bst =>
    match P.InplacePredict bst x p_m type missing iteration_begin iteration_end with
    | .error msg => .error msg
    | .ok none => .error kCheckPredt
    | .ok (some p_predt) =>
      match chunksizeOf n_rows p_predt.length with
      | none => .undefined
      | some chunksize =>
        (CalcPredictShape strict_shape type n_rows n_cols chunksize (P.Groups bst)
          bst.rounds_).bind fun sd =>
        match sd.1 with
        | [] => .undefined
        | _ :: _ =>
          .ok { out_shape := some sd.1, out_dim := some sd.2, out_result := some p_predt }

/-- The function template `InplacePredictImpl`, on the parsed configuration:
the `cache_id` check comes first, then `type`, `missing`, the iteration range
(read into `int`s and handed over as `size_t`s) and `strict_shape`. -/
def InplacePredictImpl (P : Predictor) (heap : Heap) (learner : Handle) (x : Adapter)
    (p_m : Option DMatrix) (config : Json) (n_rows n_cols : Nat) : Exec PredictOut :=
  (config.index "cache_id").bind fun j =>
  (getInteger j).bind fun cache_id =>
  if cache_id ≠ 0 then .error kCacheId
  else
    (config.index "type").bind fun j =>
    (getInteger j).bind fun t =>
    match P.GetMissing config with
    | .error msg => .error msg
    | .ok missing =>
      (config.index "iteration_begin").bind fun j =>
      (getInteger j).bind fun iteration_begin =>
      (config.index "iteration_end").bind fun j =>
      (getInteger j).bind fun iteration_end =>
      (config.index "strict_shape").bind fun j =>
      (getBoolean j).bind fun strict_shape =>
      InplacePredictImplCore P heap learner x p_m (P.PredictionTypeOf t) missing n_rows n_cols
        (to_size_t (cast_int32 iteration_begin)) (to_size_t (cast_int32 iteration_end))
        strict_shape

/-- The end of an exported function whose body is the block `body`:
`API_END()` turns a thrown error into the failure status. -/
def apiEnd {α : Type} (heap : Heap) (body : Exec α) : ApiResult Heap α :=
  match body with
  | .ok out => .success heap out
  | .error msg => .failure heap msg none
  | .undefined => .undefined

/-- The optional Dataset argument `m` of the in-place entry points:
`if (m) p_m = *static_cast<std::shared_ptr<DMatrix>*>(m)`; the outer `none`
is undefined behaviour. -/
def derefOptional (heap : Heap) (m : Handle) : Option (Option DMatrix) :=
  if m = 0 then some none
  else match derefDMatrix heap m with
    | none => none
    | some p_m => some (some p_m)

/-- Exported function `XGBoosterPredictFromDense`, on the parsed
configuration. -/
def XGBoosterPredictFromDense (P : Predictor) (heap : Heap) (handle : Handle)
    (array_interface : String) (config : Json) (m : Handle) : ApiResult Heap PredictOut :=
  match CHECK_HANDLE handle with
  | some msg => .failure heap msg none
  | none =>
    match P.ArrayAdapter array_interface with
    | .error msg => .failure heap msg none
    | .ok x =>
      match derefOptional heap m with
      | none => .undefined
      | some p_m =>
        apiEnd heap (InplacePredictImpl P heap handle x p_m config x.NumRows x.NumColumns)

/-- Exported function `XGBoosterPredictFromCSR`, on the parsed configuration. -/
def XGBoosterPredictFromCSR (P : Predictor) (heap : Heap) (handle : Handle)
    (indptr indices data : String) (cols : Nat) (config : Json) (m : Handle) :
    ApiResult Heap PredictOut :=
  match CHECK_HANDLE handle with
  | some msg => .failure heap msg none
  | none =>
    match P.CSRArrayAdapter indptr indices data cols with
    | .error msg => .failure heap msg none
    | .ok x =>
      match derefOptional heap m with
      | none => .undefined
      | some p_m =>
        apiEnd heap (InplacePredictImpl P heap handle x p_m config x.NumRows x.NumColumns)

/-! ## Entry points that need device support -/

/-- The message of the unsupported-feature error. -/
def kNoGPUSupport : String := "XGBoost version not compiled with GPU support."

/-- Modelled from the spec: `common::AssertGPUSupport()` of `common/common.h`,
which is not part of the sources, in a build without device support
(`XGBOOST_USE_CUDA` not defined).  Section 7: "unsupported-feature
(device/streaming-only code paths invoked without the device-support
subsystem compiled in)", "deliberately uniform placeholders": it throws one
fixed error. -/
def AssertGPUSupport : Exec Unit := .error kNoGPUSupport

/-- Exported function `XGDMatrixCreateFromArrayInterfaceColumns` in a build
without device support; the output is what has been written to `*out`. -/
def XGDMatrixCreateFromArrayInterfaceColumns (heap : Heap) (c_json_strs : String)
    (missing : F32) (nthread : Int) : ApiResult Heap (Option Handle) :=
  apiEnd heap (AssertGPUSupport.bind fun _ => .ok none)

/-- Exported function `XGDMatrixCreateFromArrayInterface` in a build without
device support. -/
def XGDMatrixCreateFromArrayInterface (heap : Heap) (c_json_strs : String)
    (missing : F32) (nthread : Int) : ApiResult Heap (Option Handle) :=
  apiEnd heap (AssertGPUSupport.bind fun _ => .ok none)

/-- Exported function `XGBoosterPredictFromCUDAArray` in a build without
device support. -/
def XGBoosterPredictFromCUDAArray (heap : Heap) (handle : Handle) (c_json_strs : String)
    (config : Json) (m : Handle) : ApiResult Heap PredictOut :=
  match CHECK_HANDLE handle with
  | some msg => .failure heap msg none
  | none => apiEnd heap (AssertGPUSupport.bind fun _ => .ok {})

/-- Exported function `XGBoosterPredictFromCUDAColumnar` in a build without
device support. -/
def XGBoosterPredictFromCUDAColumnar (heap : Heap) (handle : Handle) (c_json_strs : String)
    (config : Json) (m : Handle) : ApiResult Heap PredictOut :=
  match CHECK_HANDLE handle with
  | some msg => .failure heap msg none
  | none => apiEnd heap (AssertGPUSupport.bind fun _ => .ok {})

/-! ## Staged string arrays and feature info -/

/-- A `const char*` into the staged strings, `ret_vec_str[index].c_str()`.
`generation` tells which state of `ret_vec_str` the pointer was taken from:
every mutation of the strings may move their buffers, so a pointer is good
for the generation it was taken in. -/
structure CharPtr where
  generation : Nat
  index : Nat
  deriving DecidableEq, Repr

/-- The string-array part of `XGBAPIThreadLocalEntry`, the staging buffers
`GetThreadLocal()` returns for a Dataset or a Model: the backing strings
`ret_vec_str`, the parallel array of references `ret_vec_charp` (`none` is
`nullptr`), and the number of mutations `ret_vec_str` has gone through. -/
structure XGBAPIThreadLocalEntry where
  ret_vec_str : List String
  ret_vec_charp : List (Option CharPtr)
  generation : Nat
  deriving DecidableEq, Repr

/-- What a string-array operation hands to the caller: `*len` and the array
`*out` points to (`dmlc::BeginPtr(charp_vecs)`). -/
structure StringArrayOut where
  len : Nat
  out : List (Option CharPtr)
  deriving DecidableEq, Repr

/-- The call `v.resize(n)` of a `std::vector`, new entries being `fill`. -/
def resize {α : Type} (v : List α) (n : Nat) (fill : α) : List α :=
  v.take n ++ List.replicate (n - v.length) fill

/-- The loop `for (size_t i = 0; i < str_vecs.size(); ++i)
charp_vecs[i] = str_vecs[i].c_str()`, with `k` iterations left at index
`i`. -/
def charpLoop (generation : Nat) : Nat → Nat → List (Option CharPtr) → List (Option CharPtr)
  | 0, _, charp_vecs => charp_vecs
  | k + 1, i, charp_vecs =>
    charpLoop generation k (i + 1)
      (charp_vecs.set i (some { generation := generation, index := i }))

/-- A mutation of the backing strings: `str_vecs = strs`, or a callee that
fills `&str_vecs`. -/
def assignStrings (entry : XGBAPIThreadLocalEntry) (strs : List String) :
    XGBAPIThreadLocalEntry :=
  { entry with ret_vec_str := strs, generation := entry.generation + 1 }

/-- The statements every string-array operation ends with:
`charp_vecs.resize(str_vecs.size())` and the loop over the strings. -/
def rebuildCharp (entry : XGBAPIThreadLocalEntry) : XGBAPIThreadLocalEntry :=
  { entry with
    ret_vec_charp := charpLoop entry.generation entry.ret_vec_str.length 0
      (resize entry.ret_vec_charp entry.ret_vec_str.length none) }

/-- The outputs `*out = dmlc::BeginPtr(charp_vecs)` and
`*len = charp_vecs.size()`. -/
def stringArrayOut (entry : XGBAPIThreadLocalEntry) : StringArrayOut :=
  { len := entry.ret_vec_charp.length, out := entry.ret_vec_charp }

/-- The feature map of a dump: index, name and type of each feature. -/
abbrev FeatureMap := List (Nat × String × String)

/-- The string services `c_api.cc` calls and does not define. -/
structure FeatureServices where
  /-- The call `MetaInfo::GetFeatureInfo(field, &str_vecs)`. -/
  GetFeatureInfo : DMatrix → String → Except String (List String)
  /-- The call `Learner::DumpModel(fmap, with_stats, format)`. -/
  DumpModel : Learner → FeatureMap → Bool → String → Except String (List String)
  /-- The feature map `FeatureMap::LoadText` reads from the file `fmap`. -/
  LoadText : String → Except String FeatureMap
  GetFeatureNames : Learner → List String
  GetFeatureTypes : Learner → List String
  SetFeatureNames : Learner → List String → Learner
  SetFeatureTypes : Learner → List String → Learner

/-- Exported function `XGDMatrixGetStrFeatureInfo`; the state is the
thread-local entry of the Dataset. -/
def XGDMatrixGetStrFeatureInfo (F : FeatureServices) (heap : Heap)
    (entry : XGBAPIThreadLocalEntry) (handle : Handle) (field : String) :
    ApiResult XGBAPIThreadLocalEntry StringArrayOut :=
  match CHECK_HANDLE handle with
  | some msg => .failure entry msg none
  | none =>
    match derefDMatrix heap handle with
    | none => .undefined
    | some m =>
      match F.GetFeatureInfo m field with
      | .error msg => .failure entry msg none
      | .ok strs =>
        .success (rebuildCharp (assignStrings entry strs))
          (stringArrayOut (rebuildCharp (assignStrings entry strs)))

/-- The helper `XGBoostDumpModelImpl`; the state is the thread-local entry
of the Model. -/
def XGBoostDumpModelImpl (F : FeatureServices) (heap : Heap) (entry : XGBAPIThreadLocalEntry)
    (handle : Handle) (fmap : FeatureMap) (with_stats : Int) (format : String) :
    ApiResult XGBAPIThreadLocalEntry StringArrayOut :=
  match derefLearner heap handle with
  | none => .undefined
  | some bst =>
    match F.DumpModel bst fmap (with_stats != 0) format with
    | .error msg => .failure entry msg none
    | .ok strs =>
      .success (rebuildCharp (assignStrings entry strs))
        (stringArrayOut (rebuildCharp (assignStrings entry strs)))

/-- Exported function `XGBoosterDumpModelEx`: the feature map is read from
the file `fmap` unless the name is empty. -/
def XGBoosterDumpModelEx (F : FeatureServices) (heap : Heap) (entry : XGBAPIThreadLocalEntry)
    (handle : Handle) (fmap : String) (with_stats : Int) (format : String) :
    ApiResult XGBAPIThreadLocalEntry StringArrayOut :=
  match CHECK_HANDLE handle with
  | some msg => .failure entry msg none
  | none =>
    if fmap.length ≠ 0 then
      match F.LoadText fmap with
      | .error msg => .failure entry msg none
      | .ok featmap => XGBoostDumpModelImpl F heap entry handle featmap with_stats format
    else XGBoostDumpModelImpl F heap entry handle [] with_stats format

/-- Exported function `XGBoosterDumpModel`: `CHECK_HANDLE()`, then
`return XGBoosterDumpModelEx(handle, fmap, with_stats, "text", len, out_models)`. -/
def XGBoosterDumpModel (F : FeatureServices) (heap : Heap) (entry : XGBAPIThreadLocalEntry)
    (handle : Handle) (fmap : String) (with_stats : Int) :
    ApiResult XGBAPIThreadLocalEntry StringArrayOut :=
  match CHECK_HANDLE handle with
  | some msg => .failure entry msg none
  | none => XGBoosterDumpModelEx F heap entry handle fmap with_stats "text"

/-- The loop `for (int i = 0; i < fnum; ++i) featmap.PushBack(i, fname[i],
ftype[i])`, with `k` iterations left at index `i`; `none` when `fname` or
`ftype` has no entry `i`. -/
def pushFeatures (fname ftype : List String) : Nat → Nat → Option FeatureMap
  | 0, _ => some []
  | k + 1, i =>
    match fname[i]?, ftype[i]?, pushFeatures fname ftype k (i + 1) with
    | some n, some t, some rest => some ((i, n, t) :: rest)
    | _, _, _ => none

/-- Exported function `XGBoosterDumpModelExWithFeatures`. -/
def XGBoosterDumpModelExWithFeatures (F : FeatureServices) (heap : Heap)
    (entry : XGBAPIThreadLocalEntry) (handle : Handle) (fnum : Int) (fname ftype : List String)
    (with_stats : Int) (format : String) : ApiResult XGBAPIThreadLocalEntry StringArrayOut :=
  match CHECK_HANDLE handle with
  | some msg => .failure entry msg none
  | none =>
    match pushFeatures fname ftype fnum.toNat 0 with
    | none => .undefined
    | some featmap => XGBoostDumpModelImpl F heap entry handle featmap with_stats format

/-- Exported function `XGBoosterDumpModelWithFeatures`:
`return XGBoosterDumpModelExWithFeatures(..., "text", len, out_models)`. -/
def XGBoosterDumpModelWithFeatures (F : FeatureServices) (heap : Heap)
    (entry : XGBAPIThreadLocalEntry) (handle : Handle) (fnum : Int) (fname ftype : List String)
    (with_stats : Int) : ApiResult XGBAPIThreadLocalEntry StringArrayOut :=
  XGBoosterDumpModelExWithFeatures F heap entry handle fnum fname ftype with_stats "text"

/-- Exported function `XGBoosterGetAttrNames`: the names are the keys of the
attribute map. -/
def XGBoosterGetAttrNames (heap : Heap) (entry : XGBAPIThreadLocalEntry) (handle : Handle) :
    ApiResult XGBAPIThreadLocalEntry StringArrayOut :=
  match CHECK_HANDLE handle with
  | some msg => .failure entry msg none
  | none =>
    match derefLearner heap handle with
    | none => .undefined
    | some learner =>
      .success (rebuildCharp (assignStrings entry (learner.attributes_.map Prod.fst)))
        (stringArrayOut (rebuildCharp (assignStrings entry (learner.attributes_.map Prod.fst))))

/-- The text streamed to `LOG(FATAL)` for a field that is neither
"feature_name" nor "feature_type". -/
def kUnknownField (field : String) : String :=
  "Unknown field for Booster feature info:" ++ field

/-- Exported function `XGBoosterSetStrFeatureInfo`: `features` is the caller's
array, its first `size` entries are copied before the field is looked at. -/
def XGBoosterSetStrFeatureInfo (F : FeatureServices) (heap : Heap) (handle : Handle)
    (field : String) (features : List String) (size : Nat) : ApiResult Heap Unit :=
  match CHECK_HANDLE handle with
  | some msg => .failure heap msg none
  | none =>
    if size ≤ features.length then
      if field = "feature_name" then
        match derefLearner heap handle with
        | none => .undefined
        | some learner =>
          .success
            { heap with
              learners := storeAt handle (F.SetFeatureNames learner (features.take size))
                heap.learners } ()
      else if field = "feature_type" then
        match derefLearner heap handle with
        | none => .undefined
        | some learner =>
          .success
            { heap with
              learners := storeAt handle (F.SetFeatureTypes learner (features.take size))
                heap.learners } ()
      else .failure heap (kUnknownField field) none
    else .undefined

/-- Exported function `XGBoosterGetStrFeatureInfo`; the state is the
thread-local entry of the Model, which `learner->GetThreadLocal()` fetches
before the field is looked at. -/
def XGBoosterGetStrFeatureInfo (F : FeatureServices) (heap : Heap)
    (entry : XGBAPIThreadLocalEntry) (handle : Handle) (field : String) :
    ApiResult XGBAPIThreadLocalEntry StringArrayOut :=
  match CHECK_HANDLE handle with
  | some msg => .failure entry msg none
  | none =>
    match derefLearner heap handle with
    | none => .undefined
    | some learner =>
      if field = "feature_name" then
        .success (rebuildCharp (assignStrings entry (F.GetFeatureNames learner)))
          (stringArrayOut (rebuildCharp (assignStrings entry (F.GetFeatureNames learner))))
      else if field = "feature_type" then
        .success (rebuildCharp (assignStrings entry (F.GetFeatureTypes learner)))
          (stringArrayOut (rebuildCharp (assignStrings entry (F.GetFeatureTypes learner))))
      else .failure entry (kUnknownField field) none

/-- The state of the staging buffers a string-array operation is said to
leave behind: as many references as backing strings, that length reported to
the caller together with the reference array, and reference `i` pointing to
backing string `i` in its current place. -/
def stagedOk (entry : XGBAPIThreadLocalEntry) (out : StringArrayOut) : Prop :=
  entry.ret_vec_charp.length = entry.ret_vec_str.length ∧
  out.len = entry.ret_vec_str.length ∧
  out.out = entry.ret_vec_charp ∧
  ∀ i, i < entry.ret_vec_str.length →
    entry.ret_vec_charp[i]? = some (some { generation := entry.generation, index := i })

/-! ## The flags of `Predict` -/

/-- The five boolean arguments of `Learner::Predict`, named as its
parameters are. -/
structure PredictFlags where
  output_margin : Bool
  pred_leaf : Bool
  pred_contribs : Bool
  approx_contribs : Bool
  pred_interactions : Bool
  deriving DecidableEq, Repr

/-- The boolean arguments `XGBoosterPredictFromDMatrix` computes from `type`
for its call of `Predict`: `type == PredictionType::kMargin`,
`type == PredictionType::kLeaf` and the locals `contribs`, `approximate` and
`interactions`. -/
def XGBoosterPredictFromDMatrix_flags (type : PredictionType) : PredictFlags :=
  { output_margin := type = .kMargin,
    pred_leaf := type = .kLeaf,
    pred_contribs := type = .kContribution ∨ type = .kApproxContribution,
    approx_contribs := type = .kApproxContribution ∨ type = .kApproxInteraction,
    pred_interactions := type = .kInteraction ∨ type = .kApproxInteraction }

/-- The error of a `Predict` that takes one tuple of flags only. -/
def kOtherFlags : String := "Predict called with other flags"

/-- A predictor that answers as `P` does when `Predict` is called with the
flags `f` and throws for every other tuple of flags: a call of an entry point
has the same outcome with `onlyFlags f P` as with `P` when every call of
`Predict` it makes passes the flags `f`. -/
def onlyFlags (f : PredictFlags) (P : Predictor) : Predictor :=
  { P with
    Predict := fun learner data output_margin iteration_begin iteration_end training pred_leaf
        pred_contribs approx_contribs pred_interactions =>
      if f = { output_margin := output_margin, pred_leaf := pred_leaf,
               pred_contribs := pred_contribs, approx_contribs := approx_contribs,
               pred_interactions := pred_interactions }
      then P.Predict learner data output_margin iteration_begin iteration_end training pred_leaf
        pred_contribs approx_contribs pred_interactions
      else .error kOtherFlags }

/-! ## Slicing a Model -/

/-- The outcome of `XGBoosterSlice`, whose body has a `return -2` of its own
besides the returns of `API_BEGIN()` / `API_END()`: `api r` is an outcome `r`
of those, `out_of_bound s` is the `return -2`, taken before `*out` is
assigned. -/
inductive SliceResult where
  | api (r : ApiResult Heap Handle)
  | out_of_bound (s : Heap)
  deriving DecidableEq, Repr

/-- The status code the caller sees, if the call returns. -/
def SliceResult.status : SliceResult → Option Int
  | .api r => r.status
  | .out_of_bound _ => some (-2)

/-- The value written through `out`, if any. -/
def SliceResult.out : SliceResult → Option Handle
  | .api r => r.out
  | .out_of_bound _ => none

/-- The live objects when the call returns; `none` after undefined
behaviour. -/
def SliceResult.heap : SliceResult → Option Heap
  | .api (.success s _) => some s
  | .api (.failure s _ _) => some s
  | .api .undefined => none
  | .out_of_bound s => some s

/-- The message of the failed `CHECK(p_out)`. -/
def kCheckPOut : String := "Check failed: p_out"

/-- The heap after `Learner::Slice` has returned the pointer `p_out`: a
non-null `p_out` points to a new `Learner`, at the address `heap.next`. -/
def allocSlice (heap : Heap) : Option Learner → Heap
  | none => heap
  | some sliced => { heap with learners := (heap.next, sliced) :: heap.learners,
                               next := heap.next + 1 }

/-- Exported function `XGBoosterSlice`.  `Slice` is the call
`learner->Slice(begin_layer, end_layer, step, &out_of_bound)` of the engine,
which `c_api.cc` does not define: it throws, or returns the pointer `p_out`
(`none` for a null pointer) and the value it leaves in `out_of_bound`, which
is `false` before the call.  The test of `out_of_bound` comes before
`CHECK(p_out)` and before the assignment `*out = p_out`. -/
def XGBoosterSlice (Slice : Learner → Int → Int → Int → Except String (Option Learner × Bool))
    (heap : Heap) (handle : Handle) (begin_layer end_layer step : Int) : SliceResult :=
  match CHECK_HANDLE handle with
  | some msg => .api (.failure heap msg none)
  | none =>
    match derefLearner heap handle with
    | none => .api .undefined
    | some learner =>
      match Slice learner begin_layer end_layer step with
      | .error msg => .api (.failure heap msg none)
      | .ok (p_out, out_of_bound) =>
        if out_of_bound = true then .out_of_bound (allocSlice heap p_out)
        else
          match p_out with
          | none => .api (.failure (allocSlice heap p_out) kCheckPOut none)
          | some sliced => .api (.success (allocSlice heap p_out) heap.next)

/-! ## Sample inputs -/

/-- A heap with one Dataset at address `1` (three rows, two columns, two
ranking groups) and one Model at address `2`. -/
def sampleHeap : Heap :=
  { dmats := [(1, { num_row_ := 3, num_col_ := 2, group_ptr_ := [0, 1, 3] })],
    learners := [(2, { attributes_ := [("best_iteration", "7")], rounds_ := 4 })],
    next := 3 }

/-- An engine for evaluation: training adds one round, a slice keeps the
columns and has one row per index. -/
def sampleEngine : Engine :=
  { Create := fun _ => { attributes_ := [], rounds_ := 0 },
    UpdateOneIter := fun bst _ _ => .ok { bst with rounds_ := bst.rounds_ + 1 },
    Slice := fun m ridxs =>
      .ok { num_row_ := ridxs.length, num_col_ := m.num_col_, group_ptr_ := [] } }

/-- A stand-in for the encoder/parser pair with an exact round trip, for
evaluation: the text of a `float` is the decimal text of its bit pattern. -/
def sampleCharconv : Charconv :=
  { to_chars := fun x => decimalDigits (x.bits + 1) x.bits,
    from_chars := fun s => some { bits := digitsValue s 0 } }

/-- A table of declared types for evaluation: the integer `verbosity`, the
boolean `use_rmm` and a floating-point `eps`. -/
def sampleFind (name : String) : Option FieldType :=
  if name = "verbosity" then some .kInt32
  else if name = "use_rmm" then some .kBool
  else if name = "eps" then some .kFloat
  else none

/-- The bit pattern `0x00800000` of the smallest positive normal `float`. -/
def sampleFloat : F32 := { bits := 8388608 }

/-- A content of the 16-entry array `chars` on entry: eight characters left
on the stack, then NULs. -/
def sampleChars : List Char := List.replicate 8 '1' ++ List.replicate 8 (Char.ofNat 0)

/-- The text after the last dot of a file name, empty when there is no dot:
a `FileExtension` for evaluation. -/
def sampleFileExtension (fname : String) : String :=
  if fname.data.contains '.' then
    String.mk (fname.data.reverse.takeWhile (fun c => c != '.')).reverse
  else ""

/-- Services for evaluation: files are looked up by name, the JSON parser
accepts a text that starts with the opening brace, the codecs keep the
`Learner` as it is. -/
def samplePersistence : Persistence :=
  { FileExtension := sampleFileExtension,
    LoadSequentialFile := fun files fname =>
      match files.lookup fname with
      | some content => .ok content
      | none => .error "Opening file failed",
    OpenRead := fun files fname =>
      match files.lookup fname with
      | some content => .ok content
      | none => .error "Opening file failed",
    OpenWrite := fun files fname => .ok ((fname, []) :: files),
    Write := fun files fname content => (fname, content) :: files,
    JsonLoad := fun str =>
      if str.head? = some kOpenBrace then .ok (.kObject []) else .error "Expecting an object",
    JsonDump := fun _ => [kOpenBrace, Char.ofNat 125],
    Configure := fun bst => .ok bst,
    LoadModelJson := fun bst _ => .ok bst,
    LoadModelStream := fun bst _ => .ok bst,
    SaveModelJson := fun _ => .ok (.kObject []),
    SaveModelStream := fun _ => .ok ['b', 'i', 'n', 'f'] }

/-- A world whose file `model.json` starts with a blank before the opening
brace, and whose file `ok.json` starts with the brace. -/
def sampleWorld : World :=
  { heap := sampleHeap,
    files := [("model.json", [' ', kOpenBrace, Char.ofNat 125]),
              ("ok.json", [kOpenBrace, Char.ofNat 125, ' '])] }

/-- Prediction services for evaluation: the enumerators are numbered from 0
in the order of `PredictionType`, every Model has five output groups, and a
prediction stages `rows × groups` zeros (`rows × groups × (columns + 1)` for a
contribution). -/
def samplePredictor : Predictor :=
  { PredictionTypeOf := fun i =>
      if i = 0 then .kValue else if i = 1 then .kMargin
      else if i = 2 then .kContribution else if i = 3 then .kApproxContribution
      else if i = 4 then .kInteraction else if i = 5 then .kApproxInteraction
      else if i = 6 then .kLeaf else .kUnknown i,
    Groups := fun _ => 5,
    Predict := fun _ data _ _ _ _ _ pred_contribs _ _ =>
      .ok (List.replicate
        (if pred_contribs then data.num_row_ * (5 * (data.num_col_ + 1)) else data.num_row_ * 5)
        { bits := 0 }),
    InplacePredict := fun _ x _ _ _ _ _ =>
      .ok (some (List.replicate (x.NumRows * 5) { bits := 0 })),
    GetMissing := fun _ => .ok { bits := 2143289344 },
    ArrayAdapter := fun _ => .ok { NumRows := 2, NumColumns := 3 },
    CSRArrayAdapter := fun _ _ _ cols => .ok { NumRows := 2, NumColumns := cols } }

/-- A per-call configuration document: `type`, the iteration range, the
`training` and `strict_shape` flags and `cache_id`. -/
def sampleConfig (type cache_id : Int) (strict_shape : Bool) : Json :=
  .kObject [("cache_id", .kInteger cache_id), ("iteration_begin", .kInteger 0),
            ("iteration_end", .kInteger 0), ("strict_shape", .kBoolean strict_shape),
            ("training", .kBoolean false), ("type", .kInteger type)]

/-- A heap with a Dataset of 100 rows and 10 columns at address `1` and a
Model at address `2`. -/
def predictHeap : Heap :=
  { dmats := [(1, { num_row_ := 100, num_col_ := 10, group_ptr_ := [] })],
    learners := [(2, { attributes_ := [], rounds_ := 4 })],
    next := 3 }

/-- Prediction services for evaluation with a single output group: a
contribution stages `rows × (columns + 1)` zeros, any other prediction `rows`
zeros. -/
def singleGroupPredictor : Predictor :=
  { samplePredictor with
    Groups := fun _ => 1,
    Predict := fun _ data _ _ _ _ _ pred_contribs _ _ =>
      .ok (List.replicate
        (if pred_contribs then data.num_row_ * (1 * (data.num_col_ + 1)) else data.num_row_ * 1)
        { bits := 0 }) }

/-- String services for evaluation: a Dataset has the feature names `f0`,
`f1`, a Model the names `a`, `b`, `c` and no types; a dump has one string per
boosting round. -/
def sampleFeatures : FeatureServices :=
  { GetFeatureInfo := fun _ field =>
      if field = "feature_name" then .ok ["f0", "f1"]
      else if field = "feature_type" then .ok ["q", "q"]
      else .error "Unknown feature info name",
    DumpModel := fun bst _ _ _ => .ok (List.replicate bst.rounds_ "leaf"),
    LoadText := fun _ => .ok [],
    GetFeatureNames := fun _ => ["a", "b", "c"],
    GetFeatureTypes := fun _ => [],
    SetFeatureNames := fun bst _ => bst,
    SetFeatureTypes := fun bst _ => bst }

/-- Staging buffers left by an earlier call that staged three strings. -/
def sampleEntry : XGBAPIThreadLocalEntry :=
  { ret_vec_str := ["a", "b", "c"],
    ret_vec_charp := [some { generation := 1, index := 0 }, some { generation := 1, index := 1 },
                      some { generation := 1, index := 2 }],
    generation := 1 }

/-- A `Learner::Slice` for evaluation on a Model of `rounds_` layers: a
range that ends after the last layer is out of bound, a zero step throws, and
any other range gives a Model of the layers `begin_layer`, `begin_layer + step`,
... below `end_layer` (`end_layer = 0` stands for all layers). -/
def sampleSlice (learner : Learner) (begin_layer end_layer step : Int) :
    Except String (Option Learner × Bool) :=
  if step = 0 then .error "Check failed: step != 0"
  else if (learner.rounds_ : Int) < end_layer ∨ (learner.rounds_ : Int) ≤ begin_layer then
    .ok (some { attributes_ := learner.attributes_, rounds_ := 0 }, true)
  else
    .ok (some { attributes_ := learner.attributes_,
                rounds_ := (((if end_layer = 0 then (learner.rounds_ : Int) else end_layer)
                  - begin_layer + step - 1) / step).toNat }, false)

theorem CHECK_HANDLE_null : CHECK_HANDLE 0 = some kBadHandle := rfl

theorem CHECK_HANDLE_nonnull (h : Handle) (hh : h ≠ 0) : CHECK_HANDLE h = none := by
  simp [CHECK_HANDLE, hh]

/-- Functions that start with `CHECK_HANDLE()` reject the null handle with the
bad-handle error, before any dereference. -/
theorem null_handle_rejected (E : Engine) (Configure : Learner → Except String Learner)
    (heap : Heap) (idxset : List Int) (len : Nat) (allow_groups iter : Int) (dtrain : Handle) :
    XGDMatrixFree heap 0 = .failure heap kBadHandle none ∧
    XGDMatrixNumRow heap 0 = .failure heap kBadHandle none ∧
    XGDMatrixNumCol heap 0 = .failure heap kBadHandle none ∧
    XGDMatrixSliceDMatrixEx E heap 0 idxset len allow_groups = .failure heap kBadHandle none ∧
    XGBoosterFree heap 0 = .failure heap kBadHandle none ∧
    XGBoosterBoostedRounds Configure heap 0 = .failure heap kBadHandle none ∧
    XGBoosterUpdateOneIter E heap 0 iter dtrain = .failure heap kBadHandle none :=
  ⟨rfl, rfl, rfl, rfl, rfl, rfl, rfl⟩

/-- C1: the null handle is not always rejected before it is dereferenced.
`XGBoosterGetAttr` dereferences `handle` (`bst->GetThreadLocal()`) before
`CHECK_HANDLE()`, for every heap and key; `XGBoosterUpdateOneIter` with a live
Model dereferences a null `dtrain`; `XGBoosterCreate` dereferences a null
`dmats[0]`.  Each of the three calls is undefined behaviour instead of a
return with the bad-handle error. -/
theorem null_handle_dereferenced :
    (∀ (heap : Heap) (key : String), XGBoosterGetAttr heap 0 key = .undefined) ∧
    (∀ (E : Engine) (iter : Int), XGBoosterUpdateOneIter E sampleHeap 2 iter 0 = .undefined) ∧
    (∀ (E : Engine), XGBoosterCreate E sampleHeap [0] 1 = .undefined) :=
  ⟨fun _ _ => rfl, fun _ _ => rfl, fun _ => rfl⟩

/-- C10: for a live Dataset with a non-empty group partition,
`XGDMatrixSliceDMatrixEx` with `allow_groups = 0` fails with "slice does not
support group structure" and writes no output handle; `XGDMatrixSliceDMatrix`
is `XGDMatrixSliceDMatrixEx` with `allow_groups = 0`; with a non-zero
`allow_groups` the group check is skipped and the outcome is that of
`Slice` on the first `len` row indices, whose result is stored behind a new
handle. -/
theorem slice_group_structure (E : Engine) (heap : Heap) (handle : Handle) (dmat : DMatrix)
    (idxset : List Int) (len : Nat)
    (hlive : derefDMatrix heap handle = some dmat) (hgroup : dmat.group_ptr_ ≠ []) :
    XGDMatrixSliceDMatrixEx E heap handle idxset len 0 = .failure heap kSliceGroup none ∧
    (XGDMatrixSliceDMatrixEx E heap handle idxset len 0).status = some (-1) ∧
    (XGDMatrixSliceDMatrixEx E heap handle idxset len 0).out = none ∧
    XGDMatrixSliceDMatrix E heap handle idxset len
      = XGDMatrixSliceDMatrixEx E heap handle idxset len 0 ∧
    ∀ allow_groups : Int, allow_groups ≠ 0 →
      XGDMatrixSliceDMatrixEx E heap handle idxset len allow_groups =
        match E.Slice dmat (idxset.take len) with
        | .error msg => .failure heap msg none
        | .ok sliced =>
          .success { heap with dmats := (heap.next, sliced) :: heap.dmats,
                               next := heap.next + 1 } heap.next := by
  have h0 : handle ≠ 0 := by
    intro h
    subst h
    simp [derefDMatrix] at hlive
  have hlen : dmat.group_ptr_.length ≠ 0 := by
    intro h
    exact hgroup (List.length_eq_zero.mp h)
  have hfail : XGDMatrixSliceDMatrixEx E heap handle idxset len 0
      = .failure heap kSliceGroup none := by
    simp [XGDMatrixSliceDMatrixEx, CHECK_HANDLE_nonnull handle h0, hlive, hlen]
  refine ⟨hfail, ?_, ?_, rfl, ?_⟩
  · rw [hfail]; rfl
  · rw [hfail]; rfl
  · intro allow_groups hallow
    simp [XGDMatrixSliceDMatrixEx, CHECK_HANDLE_nonnull handle h0, hlive, hallow]

/-- Witness of `slice_group_structure`: the sample Dataset has the group
partition `[0, 1, 3]`. -/
theorem slice_group_structure_witness :
    XGDMatrixSliceDMatrixEx sampleEngine sampleHeap 1 [2, 0] 2 0
      = .failure sampleHeap kSliceGroup none :=
  (slice_group_structure sampleEngine sampleHeap 1
    { num_row_ := 3, num_col_ := 2, group_ptr_ := [0, 1, 3] } [2, 0] 2 rfl (by decide)).1

/-! ## `XGBSetGlobalConfig`: unknown keys -/

theorem unknownLoop_eq (size : Nat) : ∀ (rest : List (String × String)) (i : Nat) (ss : String),
    i + rest.length = size →
    unknownLoop size rest i ss = ss ++ commaSeparated (rest.map Prod.fst) := by
  intro rest
  induction rest with
  | nil =>
    intro i ss _
    simp [unknownLoop, commaSeparated]
  | cons item rest ih =>
    intro i ss hsize
    cases rest with
    | nil =>
      have hi : i + 1 = size := by simpa using hsize
      simp [unknownLoop, commaSeparated, hi]
    | cons b r =>
      have hi : i + 1 ≠ size := by
        simp only [List.length_cons] at hsize
        omega
      have hrec := ih (i + 1) ((ss ++ item.1) ++ ", ") (by
        simp only [List.length_cons] at hsize ⊢
        omega)
      simp only [unknownLoop, hi, ne_eq, not_false_eq_true, if_true] at hrec ⊢
      rw [hrec]
      simp [commaSeparated, String.append_assoc]

theorem unknownMessage_eq (unknown : List (String × String)) :
    unknownMessage unknown
      = "Unknown global parameters: \x7b " ++ commaSeparated (unknown.map Prod.fst) ++ " \x7d" := by
  unfold unknownMessage
  rw [unknownLoop_eq unknown.length unknown 0 _ (by simp)]

theorem intercalate_go_eq : ∀ (ks : List String) (acc : String),
    String.intercalate.go acc ", " ks
      = match ks with
        | [] => acc
        | k :: rest => (acc ++ ", ") ++ commaSeparated (k :: rest) := by
  intro ks
  induction ks with
  | nil => intro acc; rfl
  | cons k rest ih =>
    intro acc
    rw [String.intercalate.go, ih]
    cases rest with
    | nil => simp [commaSeparated]
    | cons k2 r => simp [commaSeparated, String.append_assoc]

/-- The list of keys in the message is `String.intercalate ", "` of the keys. -/
theorem commaSeparated_eq_intercalate (ks : List String) :
    commaSeparated ks = String.intercalate ", " ks := by
  cases ks with
  | nil => rfl
  | cons k rest =>
    rw [String.intercalate, intercalate_go_eq]
    cases rest with
    | nil => simp [commaSeparated]
    | cons k2 r => simp [commaSeparated, String.append_assoc]

/-- C3: when the registry reports the unknown pairs `unknown`, the call fails
with the single message "Unknown global parameters: { k1, k2, ..., kn }",
whose key list is the reported keys in order, joined by ", " and with no
separator after the last; when the registry reports none the call succeeds. -/
theorem unknown_keys_message {Cfg : Type} (cc : Charconv) (chars : List Char)
    (R : Registry Cfg) (cfg cfg2 : Cfg) (items items2 : List (String × Json))
    (unknown : List (String × String))
    (hnorm : normalizeItems cc chars items = .ok items2)
    (hreg : R.FromJson items2 cfg = .ok cfg2 unknown) :
    (unknown ≠ [] →
      XGBSetGlobalConfig cc chars R cfg (.kObject items)
        = .failure cfg2
            ("Unknown global parameters: \x7b " ++ String.intercalate ", " (unknown.map Prod.fst)
              ++ " \x7d") none ∧
      String.intercalate ", " (unknown.map Prod.fst) = commaSeparated (unknown.map Prod.fst)) ∧
    (unknown = [] → XGBSetGlobalConfig cc chars R cfg (.kObject items) = .success cfg2 ()) := by
  constructor
  · intro hne
    refine ⟨?_, (commaSeparated_eq_intercalate _).symm⟩
    have hemp : unknown.isEmpty = false := by
      cases unknown with
      | nil => exact absurd rfl hne
      | cons a l => rfl
    simp only [XGBSetGlobalConfig, hnorm, hreg, hemp, Bool.false_eq_true, if_false]
    rw [unknownMessage_eq, commaSeparated_eq_intercalate]
  · intro hnil
    subst hnil
    simp [XGBSetGlobalConfig, hnorm, hreg]

/-- Witness of `unknown_keys_message`: two unknown keys and one known key. -/
theorem unknown_keys_message_witness :
    XGBSetGlobalConfig sampleCharconv [] (specRegistry sampleFind typedSet) [("verbosity", "1")]
        (.kObject [("alpha", .kInteger 1), ("beta", .kBoolean true), ("verbosity", .kInteger 2)])
      = .failure [("verbosity", "2")] "Unknown global parameters: \x7b alpha, beta \x7d" none :=
  ((unknown_keys_message sampleCharconv [] (specRegistry sampleFind typedSet) [("verbosity", "1")]
    [("verbosity", "2")]
    [("alpha", .kInteger 1), ("beta", .kBoolean true), ("verbosity", .kInteger 2)]
    [("alpha", .kString "1"), ("beta", .kString "true"), ("verbosity", .kString "2")]
    [("alpha", "1"), ("beta", "true")] rfl rfl).1 (by decide)).1

/-! ## `XGBSetGlobalConfig`: no rollback -/

theorem lookup_setValue (k v : String) (cfg : List (String × String)) :
    (setValue k v cfg).lookup k = some v := by
  induction cfg with
  | nil => simp [setValue, List.lookup]
  | cons p rest ih =>
    obtain ⟨a, b⟩ := p
    by_cases hak : a = k
    · subst hak
      simp [setValue, List.lookup]
    · have hne : (k == a) = false := by
        simp only [beq_eq_false_iff_ne, ne_eq]
        exact fun e => hak e.symm
      simp [setValue, hak, List.lookup, hne, ih]

/-- Whatever the registry is, the configuration `XGBSetGlobalConfig` leaves
behind when it reports unknown keys is the one `FromJson` produced: the
function keeps no copy of the previous configuration and restores nothing. -/
theorem set_config_keeps_registry_state {Cfg : Type} (cc : Charconv) (chars : List Char)
    (R : Registry Cfg) (cfg cfg2 : Cfg) (items items2 : List (String × Json))
    (unknown : List (String × String))
    (hnorm : normalizeItems cc chars items = .ok items2)
    (hreg : R.FromJson items2 cfg = .ok cfg2 unknown) :
    ∃ msg, XGBSetGlobalConfig cc chars R cfg (.kObject items) = .failure cfg2 msg none ∨
      XGBSetGlobalConfig cc chars R cfg (.kObject items) = .success cfg2 () := by
  by_cases hemp : unknown.isEmpty = true
  · exact ⟨"", Or.inr (by simp [XGBSetGlobalConfig, hnorm, hreg, hemp])⟩
  · exact ⟨unknownMessage unknown, Or.inl (by simp [XGBSetGlobalConfig, hnorm, hreg, hemp])⟩

/-- C4, as stated, fails: the document `{"foo": 1, "verbosity": 2}` with the
unknown key `foo` is rejected naming `foo`, and the configuration left behind
has `verbosity = 2` where it had `verbosity = 1` before the call. -/
theorem unknown_key_config_changed :
    XGBSetGlobalConfig sampleCharconv [] (specRegistry sampleFind typedSet) [("verbosity", "1")]
        (.kObject [("foo", .kInteger 1), ("verbosity", .kInteger 2)])
      = .failure [("verbosity", "2")] "Unknown global parameters: \x7b foo \x7d" none ∧
    [("verbosity", "2")] ≠ [("verbosity", "1")] := by
  constructor
  · rfl
  · decide

/-- C4, amended: for a document of one known and one unknown key, in either
order, whose leaves normalise to the strings `s1` and `s2`, the call fails
with a message naming exactly the unknown key, and the known key's value has
been applied to the global configuration when the failure is reported
(applied, then reported). -/
theorem unknown_key_applied_then_reported (cc : Charconv) (chars : List Char)
    (Find : String → Option FieldType) (Set : FieldType → String → Option String)
    (cfg : List (String × String)) (known unknown s1 s2 value : String) (v1 v2 : Json)
    (e : FieldType) (hknown : Find known = some e) (hunknown : Find unknown = none)
    (hvalue : Set e s1 = some value)
    (h1 : normalizeItem cc chars (known, v1) = .ok (known, .kString s1))
    (h2 : normalizeItem cc chars (unknown, v2) = .ok (unknown, .kString s2)) :
    XGBSetGlobalConfig cc chars (specRegistry Find Set) cfg
        (.kObject [(known, v1), (unknown, v2)])
      = .failure (setValue known value cfg)
          ("Unknown global parameters: \x7b " ++ unknown ++ " \x7d") none ∧
    XGBSetGlobalConfig cc chars (specRegistry Find Set) cfg
        (.kObject [(unknown, v2), (known, v1)])
      = .failure (setValue known value cfg)
          ("Unknown global parameters: \x7b " ++ unknown ++ " \x7d") none ∧
    (setValue known value cfg).lookup known = some value := by
  refine ⟨?_, ?_, lookup_setValue known value cfg⟩
  · simp [XGBSetGlobalConfig, normalizeItems, h1, h2, specRegistry, FromJson, stringItems,
      updateAllowUnknown, hknown, hunknown, hvalue, unknownMessage, unknownLoop]
  · simp [XGBSetGlobalConfig, normalizeItems, h1, h2, specRegistry, FromJson, stringItems,
      updateAllowUnknown, hknown, hunknown, hvalue, unknownMessage, unknownLoop]

/-- Witness of `unknown_key_applied_then_reported`: `verbosity` is known,
`foo` is not. -/
theorem unknown_key_applied_then_reported_witness :
    XGBSetGlobalConfig sampleCharconv [] (specRegistry sampleFind typedSet) [("verbosity", "1")]
        (.kObject [("verbosity", .kInteger 2), ("foo", .kBoolean true)])
      = .failure (setValue "verbosity" "2" [("verbosity", "1")])
          ("Unknown global parameters: \x7b " ++ "foo" ++ " \x7d") none :=
  (unknown_key_applied_then_reported sampleCharconv [] sampleFind typedSet [("verbosity", "1")]
    "verbosity" "foo" "2" "true" "2" (.kInteger 2) (.kBoolean true) .kInt32 rfl rfl rfl rfl
    rfl).1

/-! ## `XGBSetGlobalConfig`: normalising the leaves -/

/-- The cases of the normalising loop that do not go through `chars`: an
integer becomes its decimal text, a boolean the token "true" or "false", and
a string, null, array or object leaf is left as it is. -/
theorem normalizeItem_plain (cc : Charconv) (chars : List Char) (key : String) :
    (∀ i : Int, normalizeItem cc chars (key, .kInteger i) = .ok (key, .kString (to_string i))) ∧
    normalizeItem cc chars (key, .kBoolean true) = .ok (key, .kString "true") ∧
    normalizeItem cc chars (key, .kBoolean false) = .ok (key, .kString "false") ∧
    (∀ str : String, normalizeItem cc chars (key, .kString str) = .ok (key, .kString str)) ∧
    normalizeItem cc chars (key, .kNull) = .ok (key, .kNull) ∧
    (∀ a, normalizeItem cc chars (key, .kArray a) = .ok (key, .kArray a)) ∧
    (∀ o, normalizeItem cc chars (key, .kObject o) = .ok (key, .kObject o)) :=
  ⟨fun _ => rfl, rfl, rfl, fun _ => rfl, rfl, fun _ => rfl, fun _ => rfl⟩

theorem normalizeItem_key (cc : Charconv) (chars : List Char) (item item2 : String × Json)
    (h : normalizeItem cc chars item = .ok item2) : item2.1 = item.1 := by
  obtain ⟨key, v⟩ := item
  cases v with
  | kNumber n =>
    simp only [normalizeItem] at h
    split at h
    · split at h
      · cases h
      · cases h; rfl
    · cases h
  | kInteger i => cases h; rfl
  | kBoolean b => cases h; rfl
  | kString str => cases h; rfl
  | kNull => cases h; rfl
  | kArray a => cases h; rfl
  | kObject o => cases h; rfl

/-- The normalising loop neither adds nor removes nor renames a key. -/
theorem normalizeItems_keys (cc : Charconv) (chars : List Char) :
    ∀ (items items2 : List (String × Json)), normalizeItems cc chars items = .ok items2 →
      items2.map Prod.fst = items.map Prod.fst := by
  intro items
  induction items with
  | nil =>
    intro items2 h
    cases h
    rfl
  | cons item rest ih =>
    intro items2 h
    simp only [normalizeItems] at h
    cases h1 : normalizeItem cc chars item with
    | undefined => simp [h1] at h
    | error msg => simp [h1] at h
    | ok item2 =>
      cases h2 : normalizeItems cc chars rest with
      | undefined => simp [h1, h2] at h
      | error msg => simp [h1, h2] at h
      | ok rest2 =>
        simp only [h1, h2, Exec.ok.injEq] at h
        subst h
        simp [normalizeItem_key cc chars item item2 h1, ih rest2 h2]

theorem cstring_append_ne (c : Char) (tail : List Char) (hc : c.toNat ≠ 0) :
    ∀ text : List Char, cstring (text ++ c :: tail) ≠ some text := by
  intro text
  induction text with
  | nil =>
    simp only [List.nil_append, cstring, hc, if_false]
    cases cstring tail <;> simp
  | cons a t ih =>
    simp only [List.cons_append, cstring]
    by_cases ha : a.toNat = 0
    · simp [ha]
    · simp only [ha, if_false]
      cases hrec : cstring (t ++ c :: tail) with
      | none => simp
      | some r =>
        intro hr
        have hrt : r = t := (List.cons.inj (Option.some.inj hr)).2
        exact ih (by rw [hrec, hrt])

/-- C5: a floating-point leaf does not always become its `to_chars` text.
When the array `chars` has room for one more character than `to_chars`
writes and the entry after the written characters is not NUL (the array is
not initialised), the leaf is not replaced by the string of the written
characters. -/
theorem number_leaf_not_to_chars_text (cc : Charconv) (chars : List Char) (key : String)
    (n : F32) (c : Char) (hc : chars.get? (cc.to_chars n).length = some c)
    (hnz : c.toNat ≠ 0) :
    normalizeItem cc chars (key, .kNumber n)
      ≠ .ok (key, .kString (String.mk (cc.to_chars n))) := by
  have hlt : (cc.to_chars n).length < chars.length := by
    by_contra hge
    rw [List.get?_eq_none.mpr (Nat.le_of_not_lt hge)] at hc
    cases hc
  have hdrop : chars.drop (cc.to_chars n).length
      = c :: chars.drop ((cc.to_chars n).length + 1) := by
    rw [List.drop_eq_getElem_cons hlt]
    congr 1
    rw [List.get?_eq_getElem?, List.getElem?_eq_getElem hlt] at hc
    exact Option.some.inj hc
  simp only [normalizeItem, Nat.le_of_lt hlt, if_true, hdrop]
  cases hrec : cstring (cc.to_chars n ++ c :: List.drop ((cc.to_chars n).length + 1) chars) with
  | none => simp
  | some r =>
    simp only [ne_eq, Exec.ok.injEq, Prod.mk.injEq, true_and, Json.kString.injEq]
    intro hr
    have hrt : r = cc.to_chars n := congrArg String.data hr
    exact cstring_append_ne c _ hnz (cc.to_chars n) (by rw [hrec, hrt])

/-- Witness of `number_leaf_not_to_chars_text`: the text of the sample value
under the stand-in encoder has seven characters, entry seven of `sampleChars`
is `1`. -/
theorem number_leaf_not_to_chars_text_witness :
    normalizeItem sampleCharconv sampleChars ("eps", .kNumber sampleFloat)
      ≠ .ok ("eps", .kString (String.mk (sampleCharconv.to_chars sampleFloat))) :=
  number_leaf_not_to_chars_text sampleCharconv sampleChars "eps" sampleFloat '1' (by decide)
    (by decide)

/-! ## Integer leaves: `std::to_string` and `std::strtoimax` -/

theorem digitChar_spec (d : Nat) (hd : d < 10) :
    (Nat.digitChar d).isDigit = true ∧ (Nat.digitChar d).toNat - 48 = d ∧
    isspace (Nat.digitChar d) = false ∧ Nat.digitChar d ≠ '-' ∧ Nat.digitChar d ≠ '+' := by
  interval_cases d <;> decide

theorem digitsValue_snoc (d : Nat) (hd : d < 10) : ∀ (ds : List Char) (acc : Nat),
    (∀ c ∈ ds, c.isDigit = true) →
    digitsValue (ds ++ [Nat.digitChar d]) acc = digitsValue ds acc * 10 + d := by
  intro ds
  induction ds with
  | nil =>
    intro acc _
    simp [digitsValue, (digitChar_spec d hd).1, (digitChar_spec d hd).2.1]
  | cons a t ih =>
    intro acc hall
    have ha : a.isDigit = true := hall a (List.mem_cons_self _ _)
    simp only [List.cons_append, digitsValue, ha, if_true]
    exact ih _ (fun c hc => hall c (List.mem_cons_of_mem _ hc))

theorem decimalDigits_spec : ∀ (fuel n : Nat), n < fuel →
    (∀ c ∈ decimalDigits fuel n, c.isDigit = true) ∧
    digitsValue (decimalDigits fuel n) 0 = n ∧
    ∃ d tl, d < 10 ∧ decimalDigits fuel n = Nat.digitChar d :: tl := by
  intro fuel
  induction fuel with
  | zero => intro n h; exact absurd h (Nat.not_lt_zero n)
  | succ fuel ih =>
    intro n hn
    by_cases h10 : n < 10
    · have hs := digitChar_spec n h10
      refine ⟨?_, ?_, n, [], h10, ?_⟩
      · intro c hc
        simp only [decimalDigits, h10, if_true, List.mem_singleton] at hc
        rw [hc]; exact hs.1
      · simp [decimalDigits, h10, digitsValue, hs.1, hs.2.1]
      · simp [decimalDigits, h10]
    · have hdiv : n / 10 < fuel := by omega
      have hmod : n % 10 < 10 := Nat.mod_lt n (by decide)
      obtain ⟨hall, hval, d, tl, hd, hhead⟩ := ih (n / 10) hdiv
      have hs := digitChar_spec (n % 10) hmod
      refine ⟨?_, ?_, d, tl ++ [Nat.digitChar (n % 10)], hd, ?_⟩
      · intro c hc
        simp only [decimalDigits, h10, if_false, List.mem_append, List.mem_singleton] at hc
        rcases hc with hc | hc
        · exact hall c hc
        · rw [hc]; exact hs.1
      · simp only [decimalDigits, h10, if_false]
        rw [digitsValue_snoc (n % 10) hmod _ 0 hall, hval]
        omega
      · simp only [decimalDigits, h10, if_false, hhead, List.cons_append]

theorem strtoimax_digits (ds : List Char) (d : Nat) (tl : List Char) (hd : d < 10)
    (hds : ds = Nat.digitChar d :: tl) :
    strtoimax ds =
      if INTMAX_MAX < (digitsValue ds 0 : Int) then INTMAX_MAX else (digitsValue ds 0 : Int) := by
  have hs := digitChar_spec d hd
  have hskip : skipSpace ds = ds := by
    rw [hds]
    simp [skipSpace, hs.2.2.1]
  unfold strtoimax
  rw [hskip]
  split
  · exact absurd (List.cons.inj hds).1.symm hs.2.2.2.1
  · exact absurd (List.cons.inj hds).1.symm hs.2.2.2.2
  · rfl

theorem strtoimax_to_string (i : Int) (hmin : -(2 : Int) ^ 63 ≤ i) (hmax : i < 2 ^ 63) :
    strtoimax (to_string i).data = i := by
  obtain ⟨_, hval, d, tl, hd, hhead⟩ := decimalDigits_spec (i.natAbs + 1) i.natAbs (by omega)
  by_cases hneg : i < 0
  · have hdata : (to_string i).data = '-' :: decimalDigits (i.natAbs + 1) i.natAbs := by
      simp [to_string, hneg]
    have hskip : skipSpace ('-' :: decimalDigits (i.natAbs + 1) i.natAbs)
        = '-' :: decimalDigits (i.natAbs + 1) i.natAbs := by
      have : isspace '-' = false := by decide
      simp [skipSpace, this]
    rw [hdata]
    unfold strtoimax
    rw [hskip]
    simp only [hval]
    have habs : (i.natAbs : Int) = -i := by omega
    rw [habs]
    have hle : ¬ ((2 : Int) ^ 63 < -i) := by omega
    rw [if_neg hle]
    omega
  · have hdata : (to_string i).data = decimalDigits (i.natAbs + 1) i.natAbs := by
      simp [to_string, hneg]
    rw [hdata, strtoimax_digits _ d tl hd hhead, hval]
    have habs : (i.natAbs : Int) = i := by omega
    rw [habs]
    have hle : ¬ (INTMAX_MAX < i) := by
      unfold INTMAX_MAX
      omega
    rw [if_neg hle]

theorem cast_int64_id (i : Int) (hmin : -(2 : Int) ^ 63 ≤ i) (hmax : i < 2 ^ 63) :
    cast_int64 i = i := by
  unfold cast_int64
  rw [Int.emod_eq_of_lt (by omega) (by omega)]
  omega

/-- C6: an integer leaf `i` in the 64-bit signed range comes back as `i`.
`XGBSetGlobalConfig` turns it into the decimal text `to_string i`, and for a
parameter declared int32, int64, uint32 or uint64 the decoding of
`XGBGetGlobalConfig` (`strtoimax` in base 10, `CHECK_LE` against the largest
`int64_t`, cast to `int64_t`) maps that text to the integer `i`, the
`CHECK_LE` holding. -/
theorem integer_round_trip (cc : Charconv) (chars : List Char)
    (Find : String → Option FieldType) (key : String) (e : FieldType) (i : Int)
    (hmin : -(2 : Int) ^ 63 ≤ i) (hmax : i < 2 ^ 63)
    (hfind : Find key = some e) (he : leafKind e = .kInteger) :
    normalizeItem cc chars (key, .kInteger i) = .ok (key, .kString (to_string i)) ∧
    strtoimax (to_string i).data = i ∧
    strtoimax (to_string i).data ≤ INTMAX_MAX ∧
    decodeItem cc Find (key, .kString (to_string i)) = .ok (key, .kInteger i) := by
  have hrt := strtoimax_to_string i hmin hmax
  have hle : i ≤ INTMAX_MAX := by
    unfold INTMAX_MAX
    omega
  refine ⟨rfl, hrt, by rw [hrt]; exact hle, ?_⟩
  have hint : e = .kInt32 ∨ e = .kInt64 ∨ e = .kUInt32 ∨ e = .kUInt64 := by
    cases e <;> simp [leafKind] at he ⊢
  simp only [decodeItem, hfind, hint, if_true, hrt, hle, cast_int64_id i hmin hmax]

/-- Witness of `integer_round_trip` at the smallest 64-bit integer, for the
parameter `verbosity`. -/
theorem integer_round_trip_witness :
    strtoimax (to_string (-9223372036854775808)).data = -9223372036854775808 ∧
    decodeItem sampleCharconv sampleFind ("verbosity", .kString (to_string (-9223372036854775808)))
      = .ok ("verbosity", .kInteger (-9223372036854775808)) :=
  ⟨(integer_round_trip sampleCharconv [] sampleFind "verbosity" .kInt32 (-9223372036854775808)
      (by norm_num) (by norm_num) rfl rfl).2.1,
   (integer_round_trip sampleCharconv [] sampleFind "verbosity" .kInt32 (-9223372036854775808)
      (by norm_num) (by norm_num) rfl rfl).2.2.2⟩

/-! ## `XGBGetGlobalConfig`: decoding the leaves -/

theorem strtoimax_le (s : List Char) : strtoimax s ≤ INTMAX_MAX := by
  unfold strtoimax INTMAX_MAX INTMAX_MIN
  split <;> split_ifs <;> omega

theorem decodeItem_key (cc : Charconv) (Find : String → Option FieldType)
    (item item2 : String × Json) (h : decodeItem cc Find item = .ok item2) :
    item2.1 = item.1 := by
  obtain ⟨name, v⟩ := item
  cases v with
  | kString str =>
    simp only [decodeItem] at h
    split at h
    · cases h
    · split_ifs at h
      · cases h; rfl
      · split at h
        · cases h
        · cases h; rfl
      · cases h; rfl
      · cases h; rfl
  | kNumber n => cases h
  | kInteger i => cases h
  | kBoolean b => cases h
  | kNull => cases h
  | kArray a => cases h
  | kObject o => cases h

/-- One string leaf of a registered parameter is decoded to the kind of its
declared type; a floating-point parameter needs a text `from_chars` accepts. -/
theorem decodeItem_kind (cc : Charconv) (Find : String → Option FieldType)
    (name str : String) (e : FieldType) (hfind : Find name = some e)
    (hfloat : leafKind e = .kNumber → (cc.from_chars str.data).isSome = true) :
    ∃ v, decodeItem cc Find (name, .kString str) = .ok (name, v) ∧ v.Type = leafKind e ∧
      (e = .kOther → v = .kString str) := by
  cases e with
  | kFloat =>
    have hsome := hfloat rfl
    cases hfc : cc.from_chars str.data with
    | none => rw [hfc] at hsome; cases hsome
    | some f => exact ⟨.kNumber f, by simp [decodeItem, hfind, hfc], rfl, by simp⟩
  | kDouble =>
    have hsome := hfloat rfl
    cases hfc : cc.from_chars str.data with
    | none => rw [hfc] at hsome; cases hsome
    | some f => exact ⟨.kNumber f, by simp [decodeItem, hfind, hfc], rfl, by simp⟩
  | kInt32 =>
    exact ⟨.kInteger (cast_int64 (strtoimax str.data)),
      by simp [decodeItem, hfind, strtoimax_le], rfl, by simp⟩
  | kInt64 =>
    exact ⟨.kInteger (cast_int64 (strtoimax str.data)),
      by simp [decodeItem, hfind, strtoimax_le], rfl, by simp⟩
  | kUInt32 =>
    exact ⟨.kInteger (cast_int64 (strtoimax str.data)),
      by simp [decodeItem, hfind, strtoimax_le], rfl, by simp⟩
  | kUInt64 =>
    exact ⟨.kInteger (cast_int64 (strtoimax str.data)),
      by simp [decodeItem, hfind, strtoimax_le], rfl, by simp⟩
  | kBool => exact ⟨.kBoolean (str != "0"), by simp [decodeItem, hfind], rfl, by simp⟩
  | kOther => exact ⟨.kString str, by simp [decodeItem, hfind], rfl, by simp⟩

theorem decodeItems_kinds (cc : Charconv) (Find : String → Option FieldType) :
    ∀ items : List (String × Json),
      (∀ item ∈ items, ∃ str e, item.2 = .kString str ∧ Find item.1 = some e ∧
        (leafKind e = .kNumber → (cc.from_chars str.data).isSome = true)) →
      ∃ out, decodeItems cc Find items = .ok out ∧
        out.map (fun p => (p.1, p.2.Type)) = items.map (fun p => (p.1, declaredKind Find p.1)) ∧
        ∀ name str, (name, Json.kString str) ∈ items → Find name = some .kOther →
          (name, Json.kString str) ∈ out := by
  intro items
  induction items with
  | nil => intro _; exact ⟨[], rfl, rfl, fun _ _ h => absurd h (List.not_mem_nil _)⟩
  | cons item rest ih =>
    intro hall
    obtain ⟨name, v⟩ := item
    obtain ⟨str, e, hv, hfind, hfloat⟩ := hall (name, v) (List.mem_cons_self _ _)
    simp only at hv hfind
    subst hv
    obtain ⟨v2, hdec, hkind, hother⟩ := decodeItem_kind cc Find name str e hfind hfloat
    obtain ⟨out, hout, hkinds, hstay⟩ := ih (fun it hit => hall it (List.mem_cons_of_mem _ hit))
    refine ⟨(name, v2) :: out, by simp [decodeItems, hdec, hout], ?_, ?_⟩
    · simp [hkinds, hkind, declaredKind, hfind]
    · intro name2 str2 hmem hfind2
      rcases List.mem_cons.mp hmem with heq | hin
      · have hn : name2 = name := congrArg Prod.fst heq
        have hs : Json.kString str2 = Json.kString str := congrArg Prod.snd heq
        subst hn
        rw [hfind] at hfind2
        rw [hother (Option.some.inj hfind2), hs]
        exact List.mem_cons_self _ _
      · exact List.mem_cons_of_mem _ (hstay name2 str2 hin hfind2)

/-- C8: `XGBGetGlobalConfig` returns a document with the keys of the
parameter set, in the same order, no key added or removed; the leaf of a
parameter declared int32, int64, uint32 or uint64 is an integer, of one
declared float or double a number, of one declared bool a boolean, and the
leaf of any other parameter is the string it was.  The call returns when
every parameter reported by `ToJson` has a string value, is found by the
manager, and, if floating-point, has a text `from_chars` accepts. -/
theorem get_config_leaf_kinds {Cfg : Type} (cc : Charconv) (R : Registry Cfg) (cfg : Cfg)
    (items : List (String × Json)) (hdoc : R.ToJson cfg = .kObject items)
    (hitems : ∀ item ∈ items, ∃ str e, item.2 = .kString str ∧ R.Find item.1 = some e ∧
      (leafKind e = .kNumber → (cc.from_chars str.data).isSome = true)) :
    ∃ out, XGBGetGlobalConfig cc R cfg = .success cfg (.kObject out) ∧
      out.map Prod.fst = items.map Prod.fst ∧
      out.map (fun p => (p.1, p.2.Type))
        = items.map (fun p => (p.1, declaredKind R.Find p.1)) ∧
      (∀ name str, (name, Json.kString str) ∈ items → R.Find name = some .kOther →
        (name, Json.kString str) ∈ out) ∧
      leafKind .kInt32 = .kInteger ∧ leafKind .kInt64 = .kInteger ∧
      leafKind .kUInt32 = .kInteger ∧ leafKind .kUInt64 = .kInteger ∧
      leafKind .kFloat = .kNumber ∧ leafKind .kDouble = .kNumber ∧
      leafKind .kBool = .kBoolean ∧ leafKind .kOther = .kString := by
  obtain ⟨out, hout, hkinds, hstay⟩ := decodeItems_kinds cc R.Find items hitems
  refine ⟨out, by simp [XGBGetGlobalConfig, hdoc, hout], ?_, hkinds, hstay,
    rfl, rfl, rfl, rfl, rfl, rfl, rfl, rfl⟩
  have := congrArg (List.map Prod.fst) hkinds
  simpa [List.map_map, Function.comp_def] using this

/-- Witness of `get_config_leaf_kinds`: a configuration with the integer
`verbosity`, the boolean `use_rmm` and the floating-point `eps`. -/
theorem get_config_leaf_kinds_witness :
    ∃ out, XGBGetGlobalConfig sampleCharconv (specRegistry sampleFind typedSet)
        [("eps", "1056964608"), ("use_rmm", "0"), ("verbosity", "2")]
      = .success [("eps", "1056964608"), ("use_rmm", "0"), ("verbosity", "2")] (.kObject out) ∧
      out.map Prod.fst = ["eps", "use_rmm", "verbosity"] ∧
      out.map (fun p => (p.1, p.2.Type))
        = [("eps", .kNumber), ("use_rmm", .kBoolean), ("verbosity", .kInteger)] := by
  obtain ⟨out, h1, h2, h3, _⟩ := get_config_leaf_kinds sampleCharconv
    (specRegistry sampleFind typedSet)
    [("eps", "1056964608"), ("use_rmm", "0"), ("verbosity", "2")]
    [("eps", .kString "1056964608"), ("use_rmm", .kString "0"), ("verbosity", .kString "2")]
    rfl (by
      intro item hitem
      simp only [List.mem_cons, List.mem_singleton, List.not_mem_nil, or_false] at hitem
      rcases hitem with h | h | h
      · exact ⟨"1056964608", .kFloat, by rw [h], by rw [h]; rfl, fun _ => rfl⟩
      · exact ⟨"0", .kBool, by rw [h], by rw [h]; rfl, fun hk => by cases hk⟩
      · exact ⟨"2", .kInt32, by rw [h], by rw [h]; rfl, fun hk => by cases hk⟩)
  exact ⟨out, h1, h2, h3⟩

/-! ## Boolean leaves -/

theorem decodeItems_lookup (cc : Charconv) (Find : String → Option FieldType)
    (key str : String) (v : Json)
    (hdec : decodeItem cc Find (key, .kString str) = .ok (key, v)) :
    ∀ (items out : List (String × Json)), decodeItems cc Find items = .ok out →
      items.lookup key = some (.kString str) → out.lookup key = some v := by
  intro items
  induction items with
  | nil => intro out _ hl; cases hl
  | cons item rest ih =>
    intro out hout hl
    simp only [decodeItems] at hout
    cases h1 : decodeItem cc Find item with
    | undefined => simp [h1] at hout
    | error msg => simp [h1] at hout
    | ok item2 =>
      cases h2 : decodeItems cc Find rest with
      | undefined => simp [h1, h2] at hout
      | error msg => simp [h1, h2] at hout
      | ok rest2 =>
        simp only [h1, h2, Exec.ok.injEq] at hout
        subst hout
        have hk := decodeItem_key cc Find item item2 h1
        obtain ⟨name, w⟩ := item
        obtain ⟨name2, w2⟩ := item2
        simp only at hk
        subst hk
        by_cases hkey : key = name2
        · subst hkey
          simp only [List.lookup, beq_self_eq_true, Option.some.injEq] at hl ⊢
          subst hl
          rw [hdec] at h1
          exact (congrArg Prod.snd (Exec.ok.inj h1)).symm
        · have hne : (key == name2) = false := by
            simp only [beq_eq_false_iff_ne, ne_eq]
            exact hkey
          simp only [List.lookup, hne] at hl ⊢
          exact ih rest2 h2 hl

theorem lookup_ToJson (key : String) : ∀ cfg : List (String × String),
    (cfg.map (fun kv => (kv.1, Json.kString kv.2))).lookup key
      = (cfg.lookup key).map Json.kString := by
  intro cfg
  induction cfg with
  | nil => rfl
  | cons p rest ih =>
    obtain ⟨a, b⟩ := p
    by_cases hkey : (key == a) = true
    · simp [List.lookup, hkey]
    · simp only [Bool.not_eq_true] at hkey
      simp [List.lookup, hkey, ih]

/-- C7: a boolean leaf `b` of a parameter declared bool comes back as `b`.
`XGBSetGlobalConfig` hands the registry the token "true" or "false"; with a
registry that reports a stored false as "0" and a stored true as a text other
than "0", the call stores the value, the decoding `str != "0"` of
`XGBGetGlobalConfig` applied to the stored string gives `b`, every document
`XGBGetGlobalConfig` returns has the boolean `b` at the key, and it does
return one for the configuration that holds this parameter alone. -/
theorem boolean_round_trip (cc : Charconv) (chars : List Char)
    (Find : String → Option FieldType) (Set : FieldType → String → Option String)
    (cfg : List (String × String)) (key : String) (b : Bool)
    (hfind : Find key = some .kBool)
    (hfalse : Set .kBool "false" = some "0")
    (htrue : ∃ text, Set .kBool "true" = some text ∧ text ≠ "0") :
    ∃ str,
      normalizeItem cc chars (key, .kBoolean b)
        = .ok (key, .kString (if b then "true" else "false")) ∧
      XGBSetGlobalConfig cc chars (specRegistry Find Set) cfg (.kObject [(key, .kBoolean b)])
        = .success (setValue key str cfg) () ∧
      (setValue key str cfg).lookup key = some str ∧
      decodeItem cc Find (key, .kString str) = .ok (key, .kBoolean b) ∧
      (∀ out, XGBGetGlobalConfig cc (specRegistry Find Set) (setValue key str cfg)
          = .success (setValue key str cfg) (.kObject out) →
        out.lookup key = some (.kBoolean b)) ∧
      XGBGetGlobalConfig cc (specRegistry Find Set) (setValue key str [])
        = .success (setValue key str []) (.kObject [(key, .kBoolean b)]) := by
  obtain ⟨text, htext, hne⟩ := htrue
  have hstored : ∃ str, Set .kBool (if b then "true" else "false") = some str ∧
      (str != "0") = b := by
    cases b with
    | true => exact ⟨text, htext, by simpa using hne⟩
    | false => exact ⟨"0", hfalse, by decide⟩
  obtain ⟨str, hset, hdecode⟩ := hstored
  have hdec : decodeItem cc Find (key, .kString str) = .ok (key, .kBoolean b) := by
    simp [decodeItem, hfind, hdecode]
  refine ⟨str, rfl, ?_, lookup_setValue key str cfg, hdec, ?_, ?_⟩
  · simp [XGBSetGlobalConfig, normalizeItems, normalizeItem, specRegistry, FromJson,
      stringItems, updateAllowUnknown, hfind, hset]
  · intro out hget
    simp only [XGBGetGlobalConfig, specRegistry, ToJson] at hget
    cases hitems : decodeItems cc Find
        ((setValue key str cfg).map (fun kv => (kv.1, Json.kString kv.2))) with
    | undefined => simp [hitems] at hget
    | error msg => simp [hitems] at hget
    | ok out2 =>
      simp only [hitems, ApiResult.success.injEq, Json.kObject.injEq, true_and] at hget
      subst hget
      refine decodeItems_lookup cc Find key str (.kBoolean b) hdec _ out2 hitems ?_
      rw [lookup_ToJson, lookup_setValue]
      rfl
  · simp [XGBGetGlobalConfig, specRegistry, ToJson, setValue, decodeItems, hdec]

/-- Witness of `boolean_round_trip`: the parameter `use_rmm` set to false
under the typed registry, which reports booleans as "1" and "0". -/
theorem boolean_round_trip_witness :
    ∃ str,
      XGBSetGlobalConfig sampleCharconv [] (specRegistry sampleFind typedSet)
          [("use_rmm", "1"), ("verbosity", "1")] (.kObject [("use_rmm", .kBoolean false)])
        = .success (setValue "use_rmm" str [("use_rmm", "1"), ("verbosity", "1")]) () ∧
      decodeItem sampleCharconv sampleFind ("use_rmm", .kString str)
        = .ok ("use_rmm", .kBoolean false) := by
  obtain ⟨str, _, h2, _, h4, _⟩ := boolean_round_trip sampleCharconv [] sampleFind typedSet
    [("use_rmm", "1"), ("verbosity", "1")] "use_rmm" false rfl rfl ⟨"1", rfl, by decide⟩
  exact ⟨str, h2, h4⟩

/-- The decoding of `XGBGetGlobalConfig` reads the token "false" as true: the
round trip of a boolean goes through the registry's own text for the stored
value, not through the token `XGBSetGlobalConfig` wrote. -/
theorem decode_false_token (cc : Charconv) (Find : String → Option FieldType) (key : String)
    (hfind : Find key = some .kBool) :
    decodeItem cc Find (key, .kString "false") = .ok (key, .kBoolean true) := by
  simp [decodeItem, hfind]

/-! ## Floating-point leaves -/

theorem cstring_nul (tail : List Char) : ∀ text : List Char, (∀ c ∈ text, c.toNat ≠ 0) →
    cstring (text ++ Char.ofNat 0 :: tail) = some text := by
  intro text
  induction text with
  | nil => intro _; rfl
  | cons a t ih =>
    intro ht
    have ha : a.toNat ≠ 0 := ht a (List.mem_cons_self _ _)
    have := ih (fun c hc => ht c (List.mem_cons_of_mem _ hc))
    simp [cstring, ha, this]

/-- C9: the string stored for a floating-point leaf is not always the run of
characters `to_chars` wrote.  When the entries of `chars` after the written
text are the non-NUL characters `garbage` followed by a NUL, the stored
string is the text followed by `garbage`, and for a parameter declared float
`XGBGetGlobalConfig` hands that longer string to `from_chars`. -/
theorem float_text_with_garbage (cc : Charconv) (chars : List Char)
    (Find : String → Option FieldType) (key : String) (n : F32) (garbage tail : List Char)
    (hfind : Find key = some .kFloat)
    (htext : ∀ c ∈ cc.to_chars n, c.toNat ≠ 0)
    (hgarbage : ∀ c ∈ garbage, c.toNat ≠ 0) (hne : garbage ≠ [])
    (hfit : (cc.to_chars n).length ≤ chars.length)
    (hchars : chars.drop (cc.to_chars n).length = garbage ++ Char.ofNat 0 :: tail) :
    normalizeItem cc chars (key, .kNumber n)
      = .ok (key, .kString (String.mk (cc.to_chars n ++ garbage))) ∧
    String.mk (cc.to_chars n ++ garbage) ≠ String.mk (cc.to_chars n) ∧
    decodeItem cc Find (key, .kString (String.mk (cc.to_chars n ++ garbage)))
      = match cc.from_chars (cc.to_chars n ++ garbage) with
        | none => .error kCheckErrc
        | some f => .ok (key, .kNumber f) := by
  have hall : ∀ c ∈ cc.to_chars n ++ garbage, c.toNat ≠ 0 := by
    intro c hc
    rcases List.mem_append.mp hc with h | h
    · exact htext c h
    · exact hgarbage c h
  have hcs := cstring_nul tail (cc.to_chars n ++ garbage) hall
  refine ⟨?_, ?_, ?_⟩
  · simp only [normalizeItem, hfit, if_true, hchars]
    rw [← List.append_assoc, hcs]
  · intro h
    have hd : cc.to_chars n ++ garbage = cc.to_chars n := congrArg String.data h
    exact hne (List.append_right_eq_self.mp hd)
  · simp [decodeItem, hfind]

/-- Witness of `float_text_with_garbage`: with the stand-in encoder the text
of the sample value is "8388608"; with `sampleChars` the stored string has one
more character and is parsed back to another bit pattern. -/
theorem float_text_with_garbage_witness :
    normalizeItem sampleCharconv sampleChars ("eps", .kNumber sampleFloat)
      = .ok ("eps", .kString "83886081") ∧
    sampleCharconv.to_chars sampleFloat = "8388608".data ∧
    sampleCharconv.from_chars (sampleCharconv.to_chars sampleFloat) = some sampleFloat ∧
    decodeItem sampleCharconv sampleFind ("eps", .kString "83886081")
      = .ok ("eps", .kNumber { bits := 83886081 }) :=
  ⟨(float_text_with_garbage sampleCharconv sampleChars sampleFind "eps" sampleFloat
      ['1'] (List.replicate 7 (Char.ofNat 0)) rfl (by decide) (by decide) (by decide) (by decide)
      (by decide)).1,
   by decide, by decide, rfl⟩

/-! ## Model persistence -/

theorem checkJsonText_none_iff (str : List Char) :
    checkJsonText str = none ↔ (2 < str.length ∧ str.head? = some kOpenBrace) := by
  unfold checkJsonText
  by_cases hlen : 2 < str.length
  · by_cases hhead : str.head? = some kOpenBrace
    · simp [hlen, hhead]
    · simp [hlen, hhead]
  · simp [hlen]

/-- C11, as stated, fails: the content of `model.json` is longer than two
bytes and its first byte that is not white space is the opening brace, and
`XGBoosterLoadModel` rejects it, because its first byte is a blank. -/
theorem load_model_leading_space_rejected :
    specJsonTextValid [' ', kOpenBrace, Char.ofNat 125] = true ∧
    XGBoosterLoadModel samplePersistence sampleWorld 2 "model.json"
      = .failure sampleWorld kCheckBrace none := by
  constructor
  · decide
  · rfl

/-- C11, amended: on a file name with the extension "json" and a non-null
handle, the loaded content passes the validation if and only if it is longer
than two bytes and its first byte is the opening brace (white space is not
skipped); otherwise the call fails and the Model and the files are as before;
a content that passes is handed to `Json::Load` and the document to the JSON
codec of the Model, whose result is what the call stores. -/
theorem load_model_json_validation (P : Persistence) (w : World) (handle : Handle)
    (fname : String) (str : List Char) (hnull : handle ≠ 0)
    (hext : P.FileExtension fname = "json")
    (hfile : P.LoadSequentialFile w.files fname = .ok str) :
    (checkJsonText str = none ↔ (2 < str.length ∧ str.head? = some kOpenBrace)) ∧
    (¬ (2 < str.length ∧ str.head? = some kOpenBrace) →
      ∃ msg, XGBoosterLoadModel P w handle fname = .failure w msg none) ∧
    ((2 < str.length ∧ str.head? = some kOpenBrace) →
      ∀ doc bst bst2, P.JsonLoad str = .ok doc → derefLearner w.heap handle = some bst →
        P.LoadModelJson bst doc = .ok bst2 →
        XGBoosterLoadModel P w handle fname
          = .success { w with heap := { w.heap with
              learners := storeAt handle bst2 w.heap.learners } } ()) := by
  refine ⟨checkJsonText_none_iff str, ?_, ?_⟩
  · intro hbad
    cases hcheck : checkJsonText str with
    | none => exact absurd ((checkJsonText_none_iff str).mp hcheck) hbad
    | some msg =>
      exact ⟨msg, by
        simp [XGBoosterLoadModel, CHECK_HANDLE_nonnull handle hnull, hext, loadModelJson,
          hfile, hcheck]⟩
  · intro hgood doc bst bst2 hdoc hbst hload
    have hcheck := (checkJsonText_none_iff str).mpr hgood
    simp [XGBoosterLoadModel, CHECK_HANDLE_nonnull handle hnull, hext, loadModelJson,
      hfile, hcheck, hdoc, hbst, hload]

/-- Witness of `load_model_json_validation`: `ok.json` starts with the
opening brace and is loaded into Model `2` of the sample world. -/
theorem load_model_json_validation_witness :
    XGBoosterLoadModel samplePersistence sampleWorld 2 "ok.json"
      = .success { sampleWorld with heap := { sampleWorld.heap with
          learners := storeAt 2 { attributes_ := [("best_iteration", "7")], rounds_ := 4 }
            sampleWorld.heap.learners } } () :=
  (load_model_json_validation samplePersistence sampleWorld 2 "ok.json"
    [kOpenBrace, Char.ofNat 125, ' '] (by decide) (by decide) rfl).2.2
    ⟨by decide, by decide⟩ (.kObject [])
    { attributes_ := [("best_iteration", "7")], rounds_ := 4 }
    { attributes_ := [("best_iteration", "7")], rounds_ := 4 } rfl rfl rfl

theorem chunksizeOf_eq (rows size : Nat) :
    chunksizeOf rows size = some (if rows = 0 then 0 else size / rows) := by
  by_cases h : rows = 0
  · simp [chunksizeOf, h]
  · simp [chunksizeOf, divide, h]

theorem chunksize_shape_eq (P : Predictor) (learner : Learner) (p_m : DMatrix)
    (type : PredictionType) (ib ie : Int) (predictions : List F32) (config : Json) :
    XGBoosterPredictFromDMatrix_shape P learner p_m type ib ie predictions config
      = ((config.index "strict_shape").bind fun j =>
          (getBoolean j).bind fun strict =>
          CalcPredictShape strict type p_m.num_row_ p_m.num_col_
            (if p_m.num_row_ = 0 then 0 else predictions.length / p_m.num_row_)
            (P.Groups learner)
            (to_size_t (if cast_int64 (ie - ib) = 0 then (learner.rounds_ : Int)
              else cast_int64 (ie - ib)))) := by
  simp only [XGBoosterPredictFromDMatrix_shape, chunksizeOf_eq]

/-- C20: the chunk size handed to the shape calculator is 0 for a row count
of 0 and the integer quotient of the number of staged predictions by the row
count otherwise; the division is never done with a zero divisor, so the shape
computation of `XGBoosterPredictFromDMatrix` and `InplacePredictImplCore`
goes on to `CalcPredictShape` with that chunk size for every input. -/
theorem chunksize_total (P : Predictor) (heap : Heap) (learner : Learner) (p_m : DMatrix)
    (type : PredictionType) (ib ie : Int) (predictions : List F32) (config : Json)
    (handle : Handle) (x : Adapter) (pm : Option DMatrix) (missing : F32)
    (n_rows n_cols b e : Nat) (strict_shape : Bool) :
    (∀ rows size : Nat,
      chunksizeOf rows size = some (if rows = 0 then 0 else size / rows) ∧
      (rows ≠ 0 → divide size rows = some (size / rows))) ∧
    XGBoosterPredictFromDMatrix_shape P learner p_m type ib ie predictions config
      = ((config.index "strict_shape").bind fun j =>
          (getBoolean j).bind fun strict =>
          CalcPredictShape strict type p_m.num_row_ p_m.num_col_
            (if p_m.num_row_ = 0 then 0 else predictions.length / p_m.num_row_)
            (P.Groups learner)
            (to_size_t (if cast_int64 (ie - ib) = 0 then (learner.rounds_ : Int)
              else cast_int64 (ie - ib)))) ∧
    (∀ bst p_predt, derefLearner heap handle = some bst →
      P.InplacePredict bst x pm type missing b e = .ok (some p_predt) →
      InplacePredictImplCore P heap handle x pm type missing n_rows n_cols b e strict_shape
        = (CalcPredictShape strict_shape type n_rows n_cols
            (if n_rows = 0 then 0 else p_predt.length / n_rows) (P.Groups bst)
            bst.rounds_).bind fun sd =>
          match sd.1 with
          | [] => .undefined
          | _ :: _ =>
            .ok { out_shape := some sd.1, out_dim := some sd.2, out_result := some p_predt }) := by
  refine ⟨fun rows size => ⟨chunksizeOf_eq rows size, fun h => by simp [divide, h]⟩,
    chunksize_shape_eq P learner p_m type ib ie predictions config, ?_⟩
  intro bst p_predt hbst hpred
  simp only [InplacePredictImplCore, hbst, hpred, chunksizeOf_eq]

/-- Witness of `chunksize_total`: an in-place prediction on an adapter with
no rows. -/
theorem chunksize_total_witness :
    chunksizeOf 0 0 = some 0 ∧
    InplacePredictImplCore samplePredictor sampleHeap 2 { NumRows := 0, NumColumns := 3 } none
        .kValue { bits := 0 } 0 3 0 0 true
      = .ok { out_shape := some [0, 5], out_dim := some 2, out_result := some [] } :=
  ⟨rfl,
   ((chunksize_total samplePredictor sampleHeap { attributes_ := [], rounds_ := 0 }
      { num_row_ := 0, num_col_ := 3, group_ptr_ := [] } .kValue 0 0 [] (.kObject []) 2
      { NumRows := 0, NumColumns := 3 } none { bits := 0 } 0 3 0 0 true).2.2
      { attributes_ := [("best_iteration", "7")], rounds_ := 4 } [] rfl rfl).trans rfl⟩

/-! ## Prediction shapes -/

/-- C13: for the default prediction type (value) with `n` rows and `g` output
groups the reported shape is `[n, g]`, of rank 2, when `strict_shape` is
true, for every `g`, and when `strict_shape` is false and `g > 1`; both in
`XGBoosterPredictFromDMatrix` (rows of the Dataset) and in
`InplacePredictImplCore` (rows of the adapter). -/
theorem default_prediction_shape (P : Predictor) (heap : Heap) (handle dmat : Handle)
    (config : Json) (strict_shape : Bool) :
    (∀ learner p_m ib ie training predictions,
      handle ≠ 0 → dmat ≠ 0 → derefLearner heap handle = some learner →
      derefDMatrix heap dmat = some p_m →
      XGBoosterPredictFromDMatrix_config P config = .ok (.kValue, ib, ie, training) →
      P.Predict learner p_m false ib ie training false false false false = .ok predictions →
      config.index "strict_shape" = .ok (.kBoolean strict_shape) →
      (strict_shape = true ∨ 1 < P.Groups learner) →
      XGBoosterPredictFromDMatrix P heap handle dmat config
        = .success heap { out_shape := some [p_m.num_row_, P.Groups learner],
                          out_dim := some 2, out_result := some predictions }) ∧
    (∀ bst x pm missing n_rows n_cols b e p_predt,
      derefLearner heap handle = some bst →
      P.InplacePredict bst x pm .kValue missing b e = .ok (some p_predt) →
      (strict_shape = true ∨ 1 < P.Groups bst) →
      InplacePredictImplCore P heap handle x pm .kValue missing n_rows n_cols b e strict_shape
        = .ok { out_shape := some [n_rows, P.Groups bst], out_dim := some 2,
                out_result := some p_predt }) := by
  constructor
  · intro learner p_m ib ie training predictions hh hd hl hm hcfg hpred hstrict hshape
    have hcalc : CalcPredictShape strict_shape .kValue p_m.num_row_ p_m.num_col_
        (if p_m.num_row_ = 0 then 0 else predictions.length / p_m.num_row_) (P.Groups learner)
        (to_size_t (if cast_int64 (ie - ib) = 0 then (learner.rounds_ : Int)
          else cast_int64 (ie - ib)))
        = .ok ([p_m.num_row_, P.Groups learner], 2) := by
      rcases hshape with hs | hg
      · simp [CalcPredictShape, hs]
      · have : P.Groups learner ≠ 1 := by omega
        simp [CalcPredictShape, this]
    have hsh := (chunksize_shape_eq P learner p_m .kValue ib ie predictions config)
    rw [hstrict] at hsh
    simp only [Exec.bind, getBoolean, hcalc] at hsh
    simp [XGBoosterPredictFromDMatrix, hh, hd, hl, hm, hcfg, hpred, hsh]
  · intro bst x pm missing n_rows n_cols b e p_predt hl hpred hshape
    have hcalc : ∀ chunk, CalcPredictShape strict_shape .kValue n_rows n_cols chunk
        (P.Groups bst) bst.rounds_ = .ok ([n_rows, P.Groups bst], 2) := by
      intro chunk
      rcases hshape with hs | hg
      · simp [CalcPredictShape, hs]
      · have : P.Groups bst ≠ 1 := by omega
        simp [CalcPredictShape, this]
    cases hc : chunksizeOf n_rows p_predt.length with
    | none =>
      by_cases h : n_rows = 0
      · simp [chunksizeOf, h] at hc
      · simp [chunksizeOf, divide, h] at hc
    | some chunk =>
      simp [InplacePredictImplCore, hl, hpred, hc, hcalc, Exec.bind]

/-- Witness of `default_prediction_shape`: 100 rows and 5 groups without
`strict_shape` give the shape `[100, 5]`. -/
theorem default_prediction_shape_witness :
    XGBoosterPredictFromDMatrix samplePredictor predictHeap 2 1 (sampleConfig 0 0 false)
      = .success predictHeap { out_shape := some [100, 5], out_dim := some 2,
                               out_result := some (List.replicate 500 { bits := 0 }) } :=
  (default_prediction_shape samplePredictor predictHeap 2 1 (sampleConfig 0 0 false) false).1
    { attributes_ := [], rounds_ := 4 } { num_row_ := 100, num_col_ := 10, group_ptr_ := [] }
    0 0 false (List.replicate 500 { bits := 0 }) (by decide) (by decide) rfl rfl rfl rfl rfl
    (Or.inr (by decide))

/-- C14: for the feature-contribution types (exact or approximate), `n` rows,
`c` columns and one output group, `XGBoosterPredictFromDMatrix` reports a
shape that starts with `n` and whose last extent is `c + 1`, with and without
`strict_shape`. -/
theorem contribution_last_extent (P : Predictor) (heap : Heap) (handle dmat : Handle)
    (config : Json) (strict_shape : Bool) (type : PredictionType) (learner : Learner)
    (p_m : DMatrix) (ib ie : Int) (training : Bool) (predictions : List F32)
    (htype : type = .kContribution ∨ type = .kApproxContribution)
    (hh : handle ≠ 0) (hd : dmat ≠ 0) (hl : derefLearner heap handle = some learner)
    (hm : derefDMatrix heap dmat = some p_m)
    (hcfg : XGBoosterPredictFromDMatrix_config P config = .ok (type, ib, ie, training))
    (hpred : P.Predict learner p_m false ib ie training false true
      (type = .kApproxContribution) false = .ok predictions)
    (hstrict : config.index "strict_shape" = .ok (.kBoolean strict_shape))
    (hgroup : P.Groups learner = 1) :
    ∃ shape dim,
      XGBoosterPredictFromDMatrix P heap handle dmat config
        = .success heap { out_shape := some shape, out_dim := some dim,
                          out_result := some predictions } ∧
      shape.getLast? = some (p_m.num_col_ + 1) ∧ shape.head? = some p_m.num_row_ ∧
      dim = shape.length ∧
      shape = (if strict_shape then [p_m.num_row_, 1, p_m.num_col_ + 1]
               else [p_m.num_row_, p_m.num_col_ + 1]) := by
  have hsh := chunksize_shape_eq P learner p_m type ib ie predictions config
  rw [hstrict] at hsh
  simp only [Exec.bind, getBoolean] at hsh
  cases strict_shape with
  | true =>
    refine ⟨[p_m.num_row_, 1, p_m.num_col_ + 1], 3, ?_, rfl, rfl, rfl, rfl⟩
    rcases htype with ht | ht
    · subst ht
      simp only [CalcPredictShape, hgroup] at hsh
      simp at hsh
      simp at hpred
      simp [XGBoosterPredictFromDMatrix, hh, hd, hl, hm, hcfg, hpred, hsh]
    · subst ht
      simp only [CalcPredictShape, hgroup] at hsh
      simp at hsh
      simp at hpred
      simp [XGBoosterPredictFromDMatrix, hh, hd, hl, hm, hcfg, hpred, hsh]
  | false =>
    refine ⟨[p_m.num_row_, p_m.num_col_ + 1], 2, ?_, rfl, rfl, rfl, rfl⟩
    rcases htype with ht | ht
    · subst ht
      simp only [CalcPredictShape, hgroup] at hsh
      simp at hsh
      simp at hpred
      simp [XGBoosterPredictFromDMatrix, hh, hd, hl, hm, hcfg, hpred, hsh]
    · subst ht
      simp only [CalcPredictShape, hgroup] at hsh
      simp at hsh
      simp at hpred
      simp [XGBoosterPredictFromDMatrix, hh, hd, hl, hm, hcfg, hpred, hsh]

/-- Witness of `contribution_last_extent`: 100 rows, 10 columns and one group
give the last extent 11. -/
theorem contribution_last_extent_witness :
    XGBoosterPredictFromDMatrix singleGroupPredictor predictHeap 2 1 (sampleConfig 2 0 false)
      = .success predictHeap { out_shape := some [100, 11], out_dim := some 2,
                               out_result := some (List.replicate 1100 { bits := 0 }) } := by
  obtain ⟨shape, dim, hres, _, _, hdim, hshape⟩ :=
    contribution_last_extent singleGroupPredictor predictHeap 2 1 (sampleConfig 2 0 false)
      false .kContribution { attributes_ := [], rounds_ := 4 }
      { num_row_ := 100, num_col_ := 10, group_ptr_ := [] } 0 0 false
      (List.replicate 1100 { bits := 0 }) (Or.inl rfl) (by decide) (by decide) rfl rfl rfl rfl
      rfl rfl
  subst hdim
  rw [hres, hshape]
  rfl

/-- C16: for a configuration document whose `cache_id` is an integer other
than 0, `InplacePredictImpl` fails with "Cache ID is not supported yet"
whatever the prediction services are, and `XGBoosterPredictFromDense` and
`XGBoosterPredictFromCSR`, once the handle check has passed and the adapter
is built, return the failure status with that message and with none of
`out_shape`, `out_dim`, `out_result` written; with `cache_id = 0` the check
passes and `InplacePredictImpl` goes on to read `type`. -/
theorem cache_id_must_be_zero (P : Predictor) (heap : Heap) (handle m : Handle) (x : Adapter)
    (p_m : Option DMatrix) (config : Json) (cache_id : Int) (n_rows n_cols : Nat)
    (hcache : config.index "cache_id" = .ok (.kInteger cache_id)) :
    (cache_id ≠ 0 →
      InplacePredictImpl P heap handle x p_m config n_rows n_cols = .error kCacheId ∧
      (∀ array_interface, handle ≠ 0 → P.ArrayAdapter array_interface = .ok x →
        derefOptional heap m = some p_m →
        XGBoosterPredictFromDense P heap handle array_interface config m
          = .failure heap kCacheId none ∧
        (XGBoosterPredictFromDense P heap handle array_interface config m).out = none) ∧
      (∀ indptr indices data cols, handle ≠ 0 →
        P.CSRArrayAdapter indptr indices data cols = .ok x →
        derefOptional heap m = some p_m →
        XGBoosterPredictFromCSR P heap handle indptr indices data cols config m
          = .failure heap kCacheId none ∧
        (XGBoosterPredictFromCSR P heap handle indptr indices data cols config m).out = none)) ∧
    (cache_id = 0 →
      InplacePredictImpl P heap handle x p_m config n_rows n_cols
        = (config.index "type").bind fun j =>
          (getInteger j).bind fun t =>
          match P.GetMissing config with
          | .error msg => .error msg
          | .ok missing =>
            (config.index "iteration_begin").bind fun j =>
            (getInteger j).bind fun iteration_begin =>
            (config.index "iteration_end").bind fun j =>
            (getInteger j).bind fun iteration_end =>
            (config.index "strict_shape").bind fun j =>
            (getBoolean j).bind fun strict_shape =>
            InplacePredictImplCore P heap handle x p_m (P.PredictionTypeOf t) missing n_rows
              n_cols (to_size_t (cast_int32 iteration_begin))
              (to_size_t (cast_int32 iteration_end)) strict_shape) := by
  constructor
  · intro hne
    have himpl : ∀ r c, InplacePredictImpl P heap handle x p_m config r c = .error kCacheId := by
      intro r c
      simp [InplacePredictImpl, hcache, Exec.bind, getInteger, hne]
    refine ⟨himpl _ _, ?_, ?_⟩
    · intro array_interface hh hx hm
      have hres : XGBoosterPredictFromDense P heap handle array_interface config m
          = .failure heap kCacheId none := by
        simp [XGBoosterPredictFromDense, CHECK_HANDLE_nonnull handle hh, hx, hm, himpl, apiEnd]
      exact ⟨hres, by rw [hres]; rfl⟩
    · intro indptr indices data cols hh hx hm
      have hres : XGBoosterPredictFromCSR P heap handle indptr indices data cols config m
          = .failure heap kCacheId none := by
        simp [XGBoosterPredictFromCSR, CHECK_HANDLE_nonnull handle hh, hx, hm, himpl, apiEnd]
      exact ⟨hres, by rw [hres]; rfl⟩
  · intro hzero
    simp [InplacePredictImpl, hcache, Exec.bind, getInteger, hzero]

/-- Witness of `cache_id_must_be_zero`: a dense in-place prediction with
`cache_id = 1` on Model `2`, without a proxy Dataset. -/
theorem cache_id_must_be_zero_witness :
    XGBoosterPredictFromDense samplePredictor predictHeap 2 "" (sampleConfig 0 1 false) 0
      = .failure predictHeap kCacheId none :=
  ((((cache_id_must_be_zero samplePredictor predictHeap 2 0 { NumRows := 2, NumColumns := 3 }
      none (sampleConfig 0 1 false) 1 2 3 rfl).1 (by decide)).2.1 "" (by decide) rfl rfl).1)

/-! ## Entry points without device support -/

/-- C17: in a build without device support the four entry points return the
failure status with the same unsupported-feature error and write none of
their outputs: the two Dataset constructors for every input, the two
prediction entry points for every non-null Model handle. -/
theorem device_entry_points_unsupported (heap : Heap) (c_json_strs : String) (missing : F32)
    (nthread : Int) (handle m : Handle) (config : Json) (hh : handle ≠ 0) :
    XGDMatrixCreateFromArrayInterface heap c_json_strs missing nthread
      = .failure heap kNoGPUSupport none ∧
    XGDMatrixCreateFromArrayInterfaceColumns heap c_json_strs missing nthread
      = .failure heap kNoGPUSupport none ∧
    XGBoosterPredictFromCUDAArray heap handle c_json_strs config m
      = .failure heap kNoGPUSupport none ∧
    XGBoosterPredictFromCUDAColumnar heap handle c_json_strs config m
      = .failure heap kNoGPUSupport none ∧
    (XGDMatrixCreateFromArrayInterface heap c_json_strs missing nthread).status = some (-1) ∧
    (XGDMatrixCreateFromArrayInterface heap c_json_strs missing nthread).out = none ∧
    (XGDMatrixCreateFromArrayInterfaceColumns heap c_json_strs missing nthread).out = none ∧
    (XGBoosterPredictFromCUDAArray heap handle c_json_strs config m).out = none ∧
    (XGBoosterPredictFromCUDAColumnar heap handle c_json_strs config m).out = none := by
  have h3 : XGBoosterPredictFromCUDAArray heap handle c_json_strs config m
      = .failure heap kNoGPUSupport none := by
    simp [XGBoosterPredictFromCUDAArray, CHECK_HANDLE_nonnull handle hh, apiEnd,
      AssertGPUSupport, Exec.bind]
  have h4 : XGBoosterPredictFromCUDAColumnar heap handle c_json_strs config m
      = .failure heap kNoGPUSupport none := by
    simp [XGBoosterPredictFromCUDAColumnar, CHECK_HANDLE_nonnull handle hh, apiEnd,
      AssertGPUSupport, Exec.bind]
  refine ⟨rfl, rfl, h3, h4, rfl, rfl, rfl, ?_, ?_⟩
  · rw [h3]; rfl
  · rw [h4]; rfl

/-- Witness of `device_entry_points_unsupported` on the sample heap, with a
handle that is not null. -/
theorem device_entry_points_unsupported_witness :
    XGBoosterPredictFromCUDAArray sampleHeap 2 "" (.kObject []) 0
      = .failure sampleHeap kNoGPUSupport none :=
  (device_entry_points_unsupported sampleHeap "" { bits := 0 } 1 2 0 (.kObject [])
    (by decide)).2.2.1

/-! ## Staged string arrays -/

theorem length_resize {α : Type} (v : List α) (n : Nat) (fill : α) :
    (resize v n fill).length = n := by
  simp only [resize, List.length_append, List.length_take, List.length_replicate]
  omega

theorem charpLoop_spec (g : Nat) : ∀ (k i : Nat) (v : List (Option CharPtr)),
    i + k = v.length →
    (charpLoop g k i v).length = v.length ∧
    ∀ j, j < v.length →
      (charpLoop g k i v)[j]? =
        if i ≤ j then some (some { generation := g, index := j }) else v[j]? := by
  intro k
  induction k with
  | zero =>
    intro i v hlen
    refine ⟨rfl, fun j hj => ?_⟩
    have : ¬ i ≤ j := by omega
    simp [charpLoop, this]
  | succ k ih =>
    intro i v hlen
    have hset : (v.set i (some { generation := g, index := i })).length = v.length :=
      List.length_set _ _ _
    obtain ⟨hl, hget⟩ := ih (i + 1) (v.set i (some { generation := g, index := i }))
      (by rw [hset]; omega)
    refine ⟨by simp only [charpLoop]; rw [hl, hset], fun j hj => ?_⟩
    simp only [charpLoop]
    rw [hget j (by rw [hset]; exact hj)]
    by_cases hij : i = j
    · subst hij
      have h1 : ¬ i + 1 ≤ i := by omega
      have hi : i < v.length := hj
      simp [h1, List.getElem?_set_self hi]
    · by_cases hlt : i + 1 ≤ j
      · have : i ≤ j := by omega
        simp [hlt, this]
      · have : ¬ i ≤ j := by omega
        simp [hlt, this, List.getElem?_set_ne hij]

/-- A mutation of the backing strings followed by the rebuild leaves the
staging buffers in the state `stagedOk`, whatever they held before, and all
references belong to the new generation of the strings. -/
theorem rebuild_staged (entry : XGBAPIThreadLocalEntry) (strs : List String) :
    stagedOk (rebuildCharp (assignStrings entry strs))
      (stringArrayOut (rebuildCharp (assignStrings entry strs))) ∧
    (rebuildCharp (assignStrings entry strs)).ret_vec_str = strs ∧
    (rebuildCharp (assignStrings entry strs)).generation = entry.generation + 1 := by
  have hspec := charpLoop_spec (entry.generation + 1) strs.length 0
    (resize entry.ret_vec_charp strs.length none)
    (by rw [length_resize]; omega)
  rw [length_resize] at hspec
  refine ⟨⟨?_, ?_, rfl, ?_⟩, rfl, rfl⟩
  · exact hspec.1
  · exact hspec.1
  · intro i hi
    have := hspec.2 i hi
    simpa [rebuildCharp, assignStrings] using this

theorem staged_of_success (entry : XGBAPIThreadLocalEntry) (strs : List String)
    (e2 : XGBAPIThreadLocalEntry) (out : StringArrayOut)
    (h : ApiResult.success (rebuildCharp (assignStrings entry strs))
        (stringArrayOut (rebuildCharp (assignStrings entry strs))) = .success e2 out) :
    stagedOk e2 out ∧ e2.generation = entry.generation + 1 := by
  cases h
  exact ⟨(rebuild_staged entry strs).1, (rebuild_staged entry strs).2.2⟩

theorem dump_impl_staged (F : FeatureServices) (heap : Heap) (entry : XGBAPIThreadLocalEntry)
    (handle : Handle) (fmap : FeatureMap) (with_stats : Int) (format : String)
    (e2 : XGBAPIThreadLocalEntry) (out : StringArrayOut)
    (h : XGBoostDumpModelImpl F heap entry handle fmap with_stats format = .success e2 out) :
    stagedOk e2 out ∧ e2.generation = entry.generation + 1 := by
  unfold XGBoostDumpModelImpl at h
  split at h
  · cases h
  · split at h
    · cases h
    · exact staged_of_success entry _ e2 out h

theorem dump_ex_staged (F : FeatureServices) (heap : Heap) (entry : XGBAPIThreadLocalEntry)
    (handle : Handle) (fmap : String) (with_stats : Int) (format : String)
    (e2 : XGBAPIThreadLocalEntry) (out : StringArrayOut)
    (h : XGBoosterDumpModelEx F heap entry handle fmap with_stats format = .success e2 out) :
    stagedOk e2 out ∧ e2.generation = entry.generation + 1 := by
  unfold XGBoosterDumpModelEx at h
  split at h
  · cases h
  · split at h
    · split at h
      · cases h
      · exact dump_impl_staged F heap entry handle _ with_stats format e2 out h
    · exact dump_impl_staged F heap entry handle _ with_stats format e2 out h

theorem dump_features_staged (F : FeatureServices) (heap : Heap)
    (entry : XGBAPIThreadLocalEntry) (handle : Handle) (fnum : Int) (fname ftype : List String)
    (with_stats : Int) (format : String) (e2 : XGBAPIThreadLocalEntry) (out : StringArrayOut)
    (h : XGBoosterDumpModelExWithFeatures F heap entry handle fnum fname ftype with_stats format
      = .success e2 out) :
    stagedOk e2 out ∧ e2.generation = entry.generation + 1 := by
  unfold XGBoosterDumpModelExWithFeatures at h
  split at h
  · cases h
  · split at h
    · cases h
    · exact dump_impl_staged F heap entry handle _ with_stats format e2 out h

/-- C18: whenever one of the string-array operations succeeds, the staged
reference array has the length of the staged backing strings, that length is
the one reported to the caller, reference `i` refers to backing string `i`,
and the references are those of the new generation of the strings: the array
is rebuilt by the call, whatever it held and whether or not the strings'
content changed. -/
theorem string_array_staged (F : FeatureServices) (heap : Heap)
    (entry e2 : XGBAPIThreadLocalEntry) (out : StringArrayOut) (handle : Handle) :
    (∀ field, XGDMatrixGetStrFeatureInfo F heap entry handle field = .success e2 out →
      stagedOk e2 out ∧ e2.generation = entry.generation + 1) ∧
    (∀ fmap with_stats format,
      XGBoosterDumpModelEx F heap entry handle fmap with_stats format = .success e2 out →
      stagedOk e2 out ∧ e2.generation = entry.generation + 1) ∧
    (∀ fmap with_stats,
      XGBoosterDumpModel F heap entry handle fmap with_stats = .success e2 out →
      stagedOk e2 out ∧ e2.generation = entry.generation + 1) ∧
    (∀ fnum fname ftype with_stats format,
      XGBoosterDumpModelExWithFeatures F heap entry handle fnum fname ftype with_stats format
        = .success e2 out →
      stagedOk e2 out ∧ e2.generation = entry.generation + 1) ∧
    (∀ fnum fname ftype with_stats,
      XGBoosterDumpModelWithFeatures F heap entry handle fnum fname ftype with_stats
        = .success e2 out →
      stagedOk e2 out ∧ e2.generation = entry.generation + 1) ∧
    (XGBoosterGetAttrNames heap entry handle = .success e2 out →
      stagedOk e2 out ∧ e2.generation = entry.generation + 1) ∧
    (∀ field, XGBoosterGetStrFeatureInfo F heap entry handle field = .success e2 out →
      stagedOk e2 out ∧ e2.generation = entry.generation + 1) := by
  refine ⟨?_, ?_, ?_, ?_, ?_, ?_, ?_⟩
  · intro field h
    unfold XGDMatrixGetStrFeatureInfo at h
    split at h
    · cases h
    · split at h
      · cases h
      · split at h
        · cases h
        · exact staged_of_success entry _ e2 out h
  · intro fmap with_stats format h
    exact dump_ex_staged F heap entry handle fmap with_stats format e2 out h
  · intro fmap with_stats h
    unfold XGBoosterDumpModel at h
    split at h
    · cases h
    · exact dump_ex_staged F heap entry handle fmap with_stats "text" e2 out h
  · intro fnum fname ftype with_stats format h
    exact dump_features_staged F heap entry handle fnum fname ftype with_stats format e2 out h
  · intro fnum fname ftype with_stats h
    exact dump_features_staged F heap entry handle fnum fname ftype with_stats "text" e2 out h
  · intro h
    unfold XGBoosterGetAttrNames at h
    split at h
    · cases h
    · split at h
      · cases h
      · exact staged_of_success entry _ e2 out h
  · intro field h
    unfold XGBoosterGetStrFeatureInfo at h
    split at h
    · cases h
    · split at h
      · cases h
      · split at h
        · exact staged_of_success entry _ e2 out h
        · split at h
          · exact staged_of_success entry _ e2 out h
          · cases h

/-- Witness of `string_array_staged`: the feature names of the sample Model
are asked for a second time, with the same three strings already staged; the
call succeeds and the three references are those of generation 2. -/
theorem string_array_staged_witness :
    XGBoosterGetStrFeatureInfo sampleFeatures sampleHeap sampleEntry 2 "feature_name"
      = .success
          { ret_vec_str := ["a", "b", "c"],
            ret_vec_charp := [some { generation := 2, index := 0 },
              some { generation := 2, index := 1 }, some { generation := 2, index := 2 }],
            generation := 2 }
          { len := 3,
            out := [some { generation := 2, index := 0 },
              some { generation := 2, index := 1 }, some { generation := 2, index := 2 }] } ∧
    stagedOk
      { ret_vec_str := ["a", "b", "c"],
        ret_vec_charp := [some { generation := 2, index := 0 },
          some { generation := 2, index := 1 }, some { generation := 2, index := 2 }],
        generation := 2 }
      { len := 3,
        out := [some { generation := 2, index := 0 },
          some { generation := 2, index := 1 }, some { generation := 2, index := 2 }] } :=
  ⟨rfl, ((string_array_staged sampleFeatures sampleHeap sampleEntry _ _ 2).2.2.2.2.2.2
    "feature_name" rfl).1⟩

/-! ## Feature info of a Model -/

/-- C19: for a field name other than "feature_name" and "feature_type",
`XGBoosterSetStrFeatureInfo` and `XGBoosterGetStrFeatureInfo` return the
failure status with the error "Unknown field for Booster feature info:"
followed by the field, Set leaving the heap, and so the Model's feature names
and types, as they were and Get writing no output; for "feature_name" the
calls go to the names accessor and for "feature_type" to the types accessor.
The handle is not null (and live where the Model is read), and the caller's
array holds `size` entries. -/
theorem feature_field_dispatch (F : FeatureServices) (heap : Heap)
    (entry : XGBAPIThreadLocalEntry) (handle : Handle) (features : List String) (size : Nat)
    (learner : Learner) (hh : handle ≠ 0) (hsize : size ≤ features.length)
    (hl : derefLearner heap handle = some learner) :
    (∀ field, field ≠ "feature_name" → field ≠ "feature_type" →
      XGBoosterSetStrFeatureInfo F heap handle field features size
        = .failure heap ("Unknown field for Booster feature info:" ++ field) none ∧
      XGBoosterGetStrFeatureInfo F heap entry handle field
        = .failure entry ("Unknown field for Booster feature info:" ++ field) none) ∧
    XGBoosterSetStrFeatureInfo F heap handle "feature_name" features size
      = .success { heap with
          learners := storeAt handle (F.SetFeatureNames learner (features.take size))
            heap.learners } () ∧
    XGBoosterSetStrFeatureInfo F heap handle "feature_type" features size
      = .success { heap with
          learners := storeAt handle (F.SetFeatureTypes learner (features.take size))
            heap.learners } () ∧
    XGBoosterGetStrFeatureInfo F heap entry handle "feature_name"
      = .success (rebuildCharp (assignStrings entry (F.GetFeatureNames learner)))
          (stringArrayOut (rebuildCharp (assignStrings entry (F.GetFeatureNames learner)))) ∧
    XGBoosterGetStrFeatureInfo F heap entry handle "feature_type"
      = .success (rebuildCharp (assignStrings entry (F.GetFeatureTypes learner)))
          (stringArrayOut (rebuildCharp (assignStrings entry (F.GetFeatureTypes learner)))) := by
  have hcheck := CHECK_HANDLE_nonnull handle hh
  have hne : ("feature_type" : String) ≠ "feature_name" := by decide
  refine ⟨?_, ?_, ?_, ?_, ?_⟩
  · intro field h1 h2
    constructor
    · simp [XGBoosterSetStrFeatureInfo, hcheck, hsize, h1, h2, kUnknownField]
    · simp [XGBoosterGetStrFeatureInfo, hcheck, hl, h1, h2, kUnknownField]
  · simp [XGBoosterSetStrFeatureInfo, hcheck, hsize, hl]
  · simp [XGBoosterSetStrFeatureInfo, hcheck, hsize, hl, hne]
  · simp [XGBoosterGetStrFeatureInfo, hcheck, hl]
  · simp [XGBoosterGetStrFeatureInfo, hcheck, hl, hne]

/-- Witness of `feature_field_dispatch`: the field "feature_weights" on the
sample Model. -/
theorem feature_field_dispatch_witness :
    XGBoosterSetStrFeatureInfo sampleFeatures sampleHeap 2 "feature_weights" ["x", "y"] 2
      = .failure sampleHeap ("Unknown field for Booster feature info:" ++ "feature_weights")
          none ∧
    XGBoosterGetStrFeatureInfo sampleFeatures sampleHeap sampleEntry 2 "feature_weights"
      = .failure sampleEntry ("Unknown field for Booster feature info:" ++ "feature_weights")
          none :=
  (feature_field_dispatch sampleFeatures sampleHeap sampleEntry 2 ["x", "y"] 2
    { attributes_ := [("best_iteration", "7")], rounds_ := 4 } (by decide) (by decide) rfl).1
    "feature_weights" (by decide) (by decide)

/-! ## The flags of `Predict` -/

/-- Restricting `Predict` to one tuple of flags leaves the reading of the
configuration as it is. -/
theorem onlyFlags_config (f : PredictFlags) (P : Predictor) (config : Json) :
    XGBoosterPredictFromDMatrix_config (onlyFlags f P) config
      = XGBoosterPredictFromDMatrix_config P config := rfl

/-- Restricting `Predict` to one tuple of flags leaves the shape computation
as it is. -/
theorem onlyFlags_shape (f : PredictFlags) (P : Predictor) (learner : Learner) (p_m : DMatrix)
    (type : PredictionType) (ib ie : Int) (predictions : List F32) (config : Json) :
    XGBoosterPredictFromDMatrix_shape (onlyFlags f P) learner p_m type ib ie predictions config
      = XGBoosterPredictFromDMatrix_shape P learner p_m type ib ie predictions config := rfl

/-- The call of `Predict` in `XGBoosterPredictFromDMatrix` passes the flags of
`XGBoosterPredictFromDMatrix_flags`. -/
theorem onlyFlags_Predict (P : Predictor) (learner : Learner) (p_m : DMatrix)
    (type : PredictionType) (ib ie : Int) (training : Bool) :
    (onlyFlags (XGBoosterPredictFromDMatrix_flags type) P).Predict learner p_m (type = .kMargin)
        ib ie training (type = .kLeaf)
        (type = .kContribution ∨ type = .kApproxContribution)
        (type = .kApproxContribution ∨ type = .kApproxInteraction)
        (type = .kInteraction ∨ type = .kApproxInteraction)
      = P.Predict learner p_m (type = .kMargin) ib ie training (type = .kLeaf)
        (type = .kContribution ∨ type = .kApproxContribution)
        (type = .kApproxContribution ∨ type = .kApproxInteraction)
        (type = .kInteraction ∨ type = .kApproxInteraction) :=
  if_pos rfl

/-- At most one of the four mode flags is set, whatever the type. -/
theorem flags_at_most_one (type : PredictionType) :
    [(XGBoosterPredictFromDMatrix_flags type).output_margin,
     (XGBoosterPredictFromDMatrix_flags type).pred_leaf,
     (XGBoosterPredictFromDMatrix_flags type).pred_contribs,
     (XGBoosterPredictFromDMatrix_flags type).pred_interactions].count true ≤ 1 := by
  cases type <;> simp [XGBoosterPredictFromDMatrix_flags]

/-- The approximate flag comes with the contribution or the interaction
flag. -/
theorem flags_approximate (type : PredictionType)
    (h : (XGBoosterPredictFromDMatrix_flags type).approx_contribs = true) :
    (XGBoosterPredictFromDMatrix_flags type).pred_contribs = true ∨
    (XGBoosterPredictFromDMatrix_flags type).pred_interactions = true := by
  cases type <;> simp [XGBoosterPredictFromDMatrix_flags] at h ⊢

/-- C21: for every prediction type, at most one of the flags output margin,
leaf index, contributions and interactions that `XGBoosterPredictFromDMatrix`
computes for `Predict` is true, the approximate flag is true only together
with the contributions or the interactions flag, and for the type `kValue`
all five flags are false; and these are the flags the call passes: whenever
the configuration reads as `type`, a `Predict` that throws for every other
tuple of flags gives the same outcome of `XGBoosterPredictFromDMatrix`. -/
theorem predict_flags (type : PredictionType) :
    [(XGBoosterPredictFromDMatrix_flags type).output_margin,
     (XGBoosterPredictFromDMatrix_flags type).pred_leaf,
     (XGBoosterPredictFromDMatrix_flags type).pred_contribs,
     (XGBoosterPredictFromDMatrix_flags type).pred_interactions].count true ≤ 1 ∧
    ((XGBoosterPredictFromDMatrix_flags type).approx_contribs = true →
      (XGBoosterPredictFromDMatrix_flags type).pred_contribs = true ∨
      (XGBoosterPredictFromDMatrix_flags type).pred_interactions = true) ∧
    XGBoosterPredictFromDMatrix_flags .kValue
      = { output_margin := false, pred_leaf := false, pred_contribs := false,
          approx_contribs := false, pred_interactions := false } ∧
    ∀ (P : Predictor) (heap : Heap) (handle dmat : Handle) (config : Json) (ib ie : Int)
      (training : Bool),
      XGBoosterPredictFromDMatrix_config P config = .ok (type, ib, ie, training) →
      XGBoosterPredictFromDMatrix (onlyFlags (XGBoosterPredictFromDMatrix_flags type) P) heap
          handle dmat config
        = XGBoosterPredictFromDMatrix P heap handle dmat config := by
  refine ⟨flags_at_most_one type, flags_approximate type, rfl, ?_⟩
  intro P heap handle dmat config ib ie training hcfg
  simp only [XGBoosterPredictFromDMatrix, onlyFlags_config, hcfg, onlyFlags_Predict,
    onlyFlags_shape]

/-- Witness of `predict_flags`: an approximate-interaction prediction (type
5) of the sample predictor, whose call of `Predict` sets the interactions and
the approximate flag only. -/
theorem predict_flags_witness :
    XGBoosterPredictFromDMatrix_flags .kApproxInteraction
      = { output_margin := false, pred_leaf := false, pred_contribs := false,
          approx_contribs := true, pred_interactions := true } ∧
    XGBoosterPredictFromDMatrix
        (onlyFlags (XGBoosterPredictFromDMatrix_flags .kApproxInteraction) samplePredictor)
        predictHeap 2 1 (sampleConfig 5 0 false)
      = XGBoosterPredictFromDMatrix samplePredictor predictHeap 2 1 (sampleConfig 5 0 false) :=
  ⟨rfl, (predict_flags .kApproxInteraction).2.2.2 samplePredictor predictHeap 2 1
    (sampleConfig 5 0 false) 0 0 false rfl⟩

/-! ## Slicing a Model -/

/-- No return through `API_END()` has the status `-2`: success is `0`, the
generic failure `-1`. -/
theorem api_status_ne_minus_two (r : ApiResult Heap Handle) : r.status ≠ some (-2) := by
  cases r <;> simp [ApiResult.status]

/-- The object behind the address a non-null `p_out` is given. -/
theorem allocSlice_deref (heap : Heap) (sliced : Learner) (hnext : heap.next ≠ 0) :
    derefLearner (allocSlice heap (some sliced)) heap.next = some sliced := by
  simp [derefLearner, allocSlice, hnext, List.lookup]

/-- C22: for a live Model on which `Slice` returns, `XGBoosterSlice` returns
the status `-2` when `Slice` reports out-of-bound, a status that no success
(`0`) and no generic failure (`-1`) has, and writes nothing through `out`;
when `Slice` does not report out-of-bound and returns a non-null Model, the
call succeeds with status `0` and writes to `out` the address of that Model,
which is the object behind it. -/
theorem slice_out_of_bound_status
    (Slice : Learner → Int → Int → Int → Except String (Option Learner × Bool))
    (heap : Heap) (handle : Handle) (begin_layer end_layer step : Int) (learner : Learner)
    (p_out : Option Learner) (out_of_bound : Bool)
    (hlive : derefLearner heap handle = some learner)
    (hslice : Slice learner begin_layer end_layer step = .ok (p_out, out_of_bound)) :
    (out_of_bound = true →
      (XGBoosterSlice Slice heap handle begin_layer end_layer step).status = some (-2) ∧
      (XGBoosterSlice Slice heap handle begin_layer end_layer step).out = none ∧
      (∀ (s : Heap) (o : Handle), (ApiResult.success s o).status = some 0 ∧
        (XGBoosterSlice Slice heap handle begin_layer end_layer step).status
          ≠ (ApiResult.success s o).status) ∧
      (∀ (s : Heap) (msg : String) (o : Option Handle),
        (ApiResult.failure s msg o).status = some (-1) ∧
        (XGBoosterSlice Slice heap handle begin_layer end_layer step).status
          ≠ (ApiResult.failure s msg o).status)) ∧
    (∀ sliced, out_of_bound = false → p_out = some sliced →
      XGBoosterSlice Slice heap handle begin_layer end_layer step
        = .api (.success (allocSlice heap (some sliced)) heap.next) ∧
      (XGBoosterSlice Slice heap handle begin_layer end_layer step).status = some 0 ∧
      (XGBoosterSlice Slice heap handle begin_layer end_layer step).out = some heap.next ∧
      (heap.next ≠ 0 →
        derefLearner (allocSlice heap (some sliced)) heap.next = some sliced)) := by
  have h0 : handle ≠ 0 := by
    intro h
    subst h
    simp [derefLearner] at hlive
  constructor
  · intro hout
    subst hout
    have hrun : XGBoosterSlice Slice heap handle begin_layer end_layer step
        = .out_of_bound (allocSlice heap p_out) := by
      simp [XGBoosterSlice, CHECK_HANDLE_nonnull handle h0, hlive, hslice]
    rw [hrun]
    refine ⟨rfl, rfl, ?_, ?_⟩
    · intro s o
      exact ⟨rfl, by simp [SliceResult.status, ApiResult.status]⟩
    · intro s msg o
      exact ⟨rfl, by simp [SliceResult.status, ApiResult.status]⟩
  · intro sliced hout hp
    subst hout
    subst hp
    have hrun : XGBoosterSlice Slice heap handle begin_layer end_layer step
        = .api (.success (allocSlice heap (some sliced)) heap.next) := by
      simp [XGBoosterSlice, CHECK_HANDLE_nonnull handle h0, hlive, hslice]
    rw [hrun]
    exact ⟨rfl, rfl, rfl, allocSlice_deref heap sliced⟩

/-- Witness of `slice_out_of_bound_status`: on the sample Model of four
layers the range `[0, 5)` is out of bound and gives the status `-2` with no
output, the range `[0, 2)` with step one gives a Model of two layers behind
the new handle `3`. -/
theorem slice_out_of_bound_status_witness :
    ((XGBoosterSlice sampleSlice sampleHeap 2 0 5 1).status = some (-2) ∧
      (XGBoosterSlice sampleSlice sampleHeap 2 0 5 1).out = none) ∧
    (XGBoosterSlice sampleSlice sampleHeap 2 0 2 1).status = some 0 ∧
    (XGBoosterSlice sampleSlice sampleHeap 2 0 2 1).out = some 3 ∧
    derefLearner (allocSlice sampleHeap
        (some { attributes_ := [("best_iteration", "7")], rounds_ := 2 })) 3
      = some { attributes_ := [("best_iteration", "7")], rounds_ := 2 } :=
  have hbound := (slice_out_of_bound_status sampleSlice sampleHeap 2 0 5 1
    { attributes_ := [("best_iteration", "7")], rounds_ := 4 }
    (some { attributes_ := [("best_iteration", "7")], rounds_ := 0 }) true rfl rfl).1 rfl
  have hin := (slice_out_of_bound_status sampleSlice sampleHeap 2 0 2 1
    { attributes_ := [("best_iteration", "7")], rounds_ := 4 }
    (some { attributes_ := [("best_iteration", "7")], rounds_ := 2 }) false rfl rfl).2
    { attributes_ := [("best_iteration", "7")], rounds_ := 2 } rfl rfl
  ⟨⟨hbound.1, hbound.2.1⟩, hin.2.1, hin.2.2.1, hin.2.2.2 (by decide)⟩

end XGBoost
